import Mathlib

/-!
Verification of the AIstudioProxyAPI parameter-reconciliation core.

This file gives a shallow embedding, in Lean 4, of the two components of the
repository's core:

* `browser_utils/thinking_normalizer.py` — the thinking-directive normalizer
  (`normalize_reasoning_effort`, `_parse_budget_value`);
* `browser_utils/page_controller.py` — the parameter-adjustment methods of
  `PageController` (`_adjust_temperature`, `_adjust_max_tokens`,
  `_adjust_stop_sequences`, `_adjust_top_p`, the toggle controllers, the
  google-search decision, and the `adjust_parameters` orchestrator).

Modelling conventions:

* Python floats are modelled as rationals (`ℚ`); the code only compares
  values against small epsilons (`0.001`, `1e-9`) and clamps to small
  ranges, and none of the claims hinge on IEEE rounding.
* Python ints are `ℤ`; Python `int(...)` string parsing is modelled by
  `pyInt` (trim, then parse optional sign plus digits).
* Each Playwright primitive (visibility wait, `input_value`, `fill`,
  `click`, `get_attribute`) is a point operation that may fail; its outcome
  for one particular call is supplied by an environment record, one field
  per call site, so a reconciliation run is a pure function of that
  environment.  `ReadRes α` models a read: `.err _` is the Playwright call
  raising, `.ok none` is a read-back string that fails to parse
  (`ValueError`), `.ok (some v)` a parsed value.
* `check_client_disconnected` is polled at named checkpoints; the outcome of
  each poll is an environment Boolean.  A positive poll raises
  `ClientDisconnectedError`; since `models.py` shows the page controller
  re-raising it from generic `except Exception` handlers, it is an
  `Exception` subclass and is modelled as being caught (and re-raised) by
  those handlers.
* Every run produces a trace (`List Event`) recording lock acquisition and
  release, surface reads/writes/clicks, diagnostic snapshots
  (`save_error_snapshot` tags, without the request id suffix), and the
  point at which a cancellation signal is raised.
-/

/-! ## Thinking-directive normalizer (`browser_utils/thinking_normalizer.py`) -/

/-- The run-time type of the `reasoning_effort` request field as the scalar
normalizer sees it: Python `None`, an `int` (Python `bool` is an `int`
subclass and behaves as `0`/`1` in every test the function performs, so it
is subsumed), a `float`, a `str`, or any other object (dict, list, ...),
all of which compare unequal to `0`/`-1`, are not `str`/`int` instances,
and hence take the same path. -/
inductive Effort
  | none
  | int (n : ℤ)
  | float (q : ℚ)
  | str (s : String)
  | other
  deriving DecidableEq

/-- The `reasoning_effort` field as the request-level normalizer sees it:
either a bare scalar or a structured thinking-config object (a dict with an
include-thoughts flag and an optional integer budget). -/
inductive ReasoningField
  | scalar (e : Effort)
  | config (includeThoughts : Bool) (thinkingBudget : Option ℤ)
  deriving DecidableEq

/-- `ThinkingDirective` dataclass of `thinking_normalizer.py`. -/
structure ThinkingDirective where
  thinking_enabled : Bool
  budget_enabled : Bool
  budget_value : Option ℤ
  thinking_level : Option String
  original_value : ReasoningField
  deriving DecidableEq

/-- Python `str.isspace` characters in the ASCII range (the default strip
set of `str.strip`). -/
def isPySpace (c : Char) : Bool :=
  c == ' ' || c == '\t' || c == '\n' || c == '\r' || c == '\x0b' || c == '\x0c'

/-- Python `s.strip()`: drop whitespace from both ends. -/
def pyStrip (s : String) : String :=
  ⟨((s.data.dropWhile isPySpace).reverse.dropWhile isPySpace).reverse⟩

/-- Python `str.upper` on one ASCII character. -/
def pyUpperChar (c : Char) : Char :=
  if 'a' ≤ c && c ≤ 'z' then Char.ofNat (c.toNat - 32) else c

/-- Python `s.upper()`. -/
def pyUpper (s : String) : String := ⟨s.data.map pyUpperChar⟩

/-- Digit run to a natural number; fails on an empty run or a non-digit. -/
def digitsToNat (l : List Char) : Option ℕ :=
  if l = [] then none
  else l.foldl (fun acc c => acc.bind fun n =>
    if c.isDigit then some (10 * n + (c.toNat - 48)) else none) (some 0)

/-- Optionally signed digit run. -/
def pyIntChars : List Char → Option ℤ
  | '-' :: rest => (digitsToNat rest).map (fun n => -(n : ℤ))
  | '+' :: rest => (digitsToNat rest).map (fun n => (n : ℤ))
  | l => (digitsToNat l).map (fun n => (n : ℤ))

/-- Python `int(s)` on a string: strips surrounding whitespace, then parses
an optionally signed run of digits, failing otherwise. -/
def pyInt (s : String) : Option ℤ := pyIntChars (pyStrip s).data

/-- `_parse_budget_value` of `thinking_normalizer.py`. -/
def parseBudgetValue : Effort → Option ℤ
  | .int n => if n > 0 then some n else none
  | .str s =>
    match pyInt s with
    | some v => if v > 0 then some v else none
    | Option.none => none
  | _ => none

/-- Python `reasoning_effort == 0` (true for `0`, `0.0`, `False`). -/
def effortEqZero : Effort → Bool
  | .int n => n == 0
  | .float q => q == 0
  | _ => false

/-- Python `reasoning_effort == -1` (true for `-1`, `-1.0`). -/
def effortEqNegOne : Effort → Bool
  | .int n => n == -1
  | .float q => q == -1
  | _ => false

/-- `isinstance(reasoning_effort, str) and reasoning_effort.strip() == "0"`. -/
def effortIsStrZero : Effort → Bool
  | .str s => pyStrip s == "0"
  | _ => false

/-- The default directive built at the top of `normalize_reasoning_effort`
from the process-wide configuration (`ENABLE_THINKING_BUDGET`,
`DEFAULT_THINKING_BUDGET`). -/
def defaultDirective (cfgEnable : Bool) (cfgBudget : ℤ) (orig : ReasoningField) :
    ThinkingDirective where
  thinking_enabled := cfgEnable
  budget_enabled := cfgEnable
  budget_value := if cfgEnable then some cfgBudget else none
  thinking_level := none
  original_value := orig

/-- `normalize_reasoning_effort` of `thinking_normalizer.py`, branch for
branch in source order.  The embedding is a total Lean function, matching
the source, which returns a directive on every path and performs no
unguarded fallible operation. -/
def normalize_reasoning_effort (cfgEnable : Bool) (cfgBudget : ℤ) (e : Effort) :
    ThinkingDirective :=
  let orig := ReasoningField.scalar e
  let dflt := defaultDirective cfgEnable cfgBudget orig
  -- 场景1: reasoning_effort is None
  if e = Effort.none then dflt
  -- 场景2: reasoning_effort == 0 or a string stripping to "0"
  else if effortEqZero e || effortIsStrZero e then
    { dflt with thinking_enabled := false, budget_enabled := false,
                budget_value := none, thinking_level := none }
  else
    -- string branches (fall through to the numeric branches on no match)
    let strBranch : Option ThinkingDirective :=
      match e with
      | .str s =>
        let up := pyUpper (pyStrip s)
        if up == "LOW" then
          some { dflt with thinking_enabled := true, thinking_level := some "LOW",
                           budget_value := some 1000, budget_enabled := true }
        else if up == "HIGH" || up == "MEDIUM" then
          some { dflt with thinking_enabled := true, thinking_level := some "HIGH",
                           budget_value := some (if up == "MEDIUM" then 8000 else 32000),
                           budget_enabled := true }
        else if up == "NONE" || up == "-1" then
          some { dflt with thinking_enabled := true, budget_enabled := false,
                           budget_value := none, thinking_level := some "HIGH" }
        else none
      | _ => none
    match strBranch with
    | some d => d
    | Option.none =>
      -- reasoning_effort == -1
      if effortEqNegOne e then
        { dflt with thinking_enabled := true, budget_enabled := false,
                    budget_value := none, thinking_level := some "HIGH" }
      else
        -- 场景4: positive numeric budget
        match parseBudgetValue e with
        | some v =>
          if v > 0 then
            { dflt with thinking_enabled := true, budget_enabled := true,
                        budget_value := some v,
                        thinking_level := some (if v < 2000 then "LOW" else "HIGH") }
          else dflt
        | Option.none => dflt

/-- Modelled from the spec: `normalize_thinking_directive`.  The page
controller imports this function from `thinking_normalizer` (it is the
normalizer actually invoked by `_handle_thinking_budget`), but its
definition is absent from the sources; only `normalize_reasoning_effort`
is present.  Following spec §4.1, resolution order, first match wins:
a structured thinking-config object with the include-thoughts flag true
yields `{enabled, budget_enabled, budget_value = b}` when it carries a
non-negative budget integer `b` and `{enabled, no budget}` otherwise;
a bare scalar is resolved by the scalar rules (the in-source
`normalize_reasoning_effort`); no signal falls back to the configuration
defaults. -/
def normalize_thinking_directive (cfgEnable : Bool) (cfgBudget : ℤ)
    (rf : Option ReasoningField) : ThinkingDirective :=
  match rf with
  | some (ReasoningField.config includeThoughts tb) =>
    let orig := ReasoningField.config includeThoughts tb
    if includeThoughts then
      match tb with
      | some b =>
        if 0 ≤ b then
          { thinking_enabled := true, budget_enabled := true, budget_value := some b,
            thinking_level := none, original_value := orig }
        else
          { thinking_enabled := true, budget_enabled := false, budget_value := none,
            thinking_level := none, original_value := orig }
      | Option.none =>
          { thinking_enabled := true, budget_enabled := false, budget_value := none,
            thinking_level := none, original_value := orig }
    else defaultDirective cfgEnable cfgBudget orig
  | some (ReasoningField.scalar e) => normalize_reasoning_effort cfgEnable cfgBudget e
  | Option.none => normalize_reasoning_effort cfgEnable cfgBudget Effort.none

/-- The documented directive invariant, as a Boolean predicate:
`budget_enabled ⇒ thinking_enabled`, and `budget_value` is non-null only
when `budget_enabled`. -/
def directiveInvariant (d : ThinkingDirective) : Bool :=
  (!d.budget_enabled || d.thinking_enabled) &&
  (d.budget_value.isNone || d.budget_enabled)

/-! ## Normalizer claims -/

/-- C2: for a structured thinking-config object with the include-thoughts
flag true, the normalizer emits `thinking_enabled = true`; when the object
also carries a non-negative budget integer (including 0) it additionally
emits `budget_enabled = true` with `budget_value` equal to that integer,
and otherwise `budget_enabled = false`; the structured form is resolved
without consulting the scalar rules or the configuration defaults (its
result is independent of them). -/
theorem structured_config_priority_C2 (cfgEnable : Bool) (cfgBudget : ℤ) (b : ℤ)
    (hb : 0 ≤ b) :
    ((normalize_thinking_directive cfgEnable cfgBudget
        (some (ReasoningField.config true (some b)))).thinking_enabled = true ∧
     (normalize_thinking_directive cfgEnable cfgBudget
        (some (ReasoningField.config true (some b)))).budget_enabled = true ∧
     (normalize_thinking_directive cfgEnable cfgBudget
        (some (ReasoningField.config true (some b)))).budget_value = some b) ∧
    ((normalize_thinking_directive cfgEnable cfgBudget
        (some (ReasoningField.config true none))).thinking_enabled = true ∧
     (normalize_thinking_directive cfgEnable cfgBudget
        (some (ReasoningField.config true none))).budget_enabled = false) ∧
    normalize_thinking_directive cfgEnable cfgBudget
        (some (ReasoningField.config true (some b))) =
      normalize_thinking_directive false 0
        (some (ReasoningField.config true (some b))) := by
  refine ⟨⟨?_, ?_, ?_⟩, ⟨rfl, rfl⟩, ?_⟩ <;>
    simp [normalize_thinking_directive, if_pos hb]

/-- Witness for C2 at the spec's own boundary example: a structured config
with include-thoughts true and budget 0 yields an enabled directive with
`budget_enabled = true` and `budget_value = 0`. -/
theorem structured_config_priority_C2_witness :
    (normalize_thinking_directive false 0
        (some (ReasoningField.config true (some 0)))).thinking_enabled = true ∧
    (normalize_thinking_directive false 0
        (some (ReasoningField.config true (some 0)))).budget_enabled = true ∧
    (normalize_thinking_directive false 0
        (some (ReasoningField.config true (some 0)))).budget_value = some 0 :=
  (structured_config_priority_C2 false 0 0 (by decide)).1

/-- C3 counterexample: the claim fixes the preset `high → 24000`, but the
source maps `"high"` to a budget of 32000 tokens
(`thinking_normalizer.py`, the `reasoning_str in ["HIGH", "MEDIUM"]`
branch: `8000 if reasoning_str == "MEDIUM" else 32000`). -/
theorem budget_presets_C3_counterexample :
    (normalize_reasoning_effort true 8000 (Effort.str "high")).budget_value
        = some 32000 ∧
    (normalize_reasoning_effort true 8000 (Effort.str "high")).budget_value
        ≠ some 24000 := by
  decide

/-- C3 (amended): for the string levels `"low"`, `"medium"`, `"high"` the
normalizer returns `thinking_enabled = true`, `budget_enabled = true`, and
the fixed presets low → 1000, medium → 8000, high → 32000 (not 24000),
whatever the configuration defaults are. -/
theorem budget_presets_C3_amended (cfgEnable : Bool) (cfgBudget : ℤ) :
    ((normalize_reasoning_effort cfgEnable cfgBudget (Effort.str "low")).thinking_enabled
        = true ∧
     (normalize_reasoning_effort cfgEnable cfgBudget (Effort.str "low")).budget_enabled
        = true ∧
     (normalize_reasoning_effort cfgEnable cfgBudget (Effort.str "low")).budget_value
        = some 1000) ∧
    ((normalize_reasoning_effort cfgEnable cfgBudget (Effort.str "medium")).thinking_enabled
        = true ∧
     (normalize_reasoning_effort cfgEnable cfgBudget (Effort.str "medium")).budget_enabled
        = true ∧
     (normalize_reasoning_effort cfgEnable cfgBudget (Effort.str "medium")).budget_value
        = some 8000) ∧
    ((normalize_reasoning_effort cfgEnable cfgBudget (Effort.str "high")).thinking_enabled
        = true ∧
     (normalize_reasoning_effort cfgEnable cfgBudget (Effort.str "high")).budget_enabled
        = true ∧
     (normalize_reasoning_effort cfgEnable cfgBudget (Effort.str "high")).budget_value
        = some 32000) :=
  ⟨⟨rfl, rfl, rfl⟩, ⟨rfl, rfl, rfl⟩, ⟨rfl, rfl, rfl⟩⟩

/-- C4: the normalizer is total — the embedding is a total Lean function
returning a `ThinkingDirective` on every input, mirroring the source in
which every fallible operation is guarded — and every directive it returns
satisfies the invariant `budget_enabled ⇒ thinking_enabled` and
`budget_value` non-null only when `budget_enabled`. -/
theorem normalizer_total_invariant_C4 :
    ∀ (cfgEnable : Bool) (cfgBudget : ℤ) (e : Effort),
      directiveInvariant (normalize_reasoning_effort cfgEnable cfgBudget e) = true := by
  intro cfgE cfgB e
  have hd : ∀ orig, directiveInvariant (defaultDirective cfgE cfgB orig) = true := by
    intro orig; cases cfgE <;> simp [defaultDirective, directiveInvariant]
  cases e with
  | none => simpa [normalize_reasoning_effort] using hd _
  | int n =>
      simp only [normalize_reasoning_effort]
      rcases hpb : parseBudgetValue (Effort.int n) with _ | v <;>
        simp only [hpb] <;> split_ifs <;>
        first
          | apply hd
          | simp [directiveInvariant]
  | float q =>
      simp only [normalize_reasoning_effort]
      rcases hpb : parseBudgetValue (Effort.float q) with _ | v <;>
        simp only [hpb] <;> split_ifs <;>
        first
          | apply hd
          | simp [directiveInvariant]
  | str s =>
      simp only [normalize_reasoning_effort]
      rcases hpb : parseBudgetValue (Effort.str s) with _ | v <;>
        simp only [hpb] <;> split_ifs <;>
        first
          | apply hd
          | simp [directiveInvariant]
  | other =>
      simp only [normalize_reasoning_effort]
      rcases hpb : parseBudgetValue Effort.other with _ | v <;>
        simp only [hpb] <;> split_ifs <;>
        first
          | apply hd
          | simp [directiveInvariant]

/-- C9: the off/unbounded sentinels map exactly: `0` and `"0"` yield a
fully-disabled directive with no budget value; `-1`, `"none"` and `"-1"`
yield thinking enabled, budget disabled, no budget value — for every
configuration default. -/
theorem sentinel_mapping_C9 :
    ∀ (cfgEnable : Bool) (cfgBudget : ℤ),
      ([Effort.int 0, Effort.str "0"].all fun e =>
        decide ((normalize_reasoning_effort cfgEnable cfgBudget e).thinking_enabled = false ∧
          (normalize_reasoning_effort cfgEnable cfgBudget e).budget_enabled = false ∧
          (normalize_reasoning_effort cfgEnable cfgBudget e).budget_value = none)) = true ∧
      ([Effort.int (-1), Effort.str "none", Effort.str "-1"].all fun e =>
        decide ((normalize_reasoning_effort cfgEnable cfgBudget e).thinking_enabled = true ∧
          (normalize_reasoning_effort cfgEnable cfgBudget e).budget_enabled = false ∧
          (normalize_reasoning_effort cfgEnable cfgBudget e).budget_value = none)) = true := by
  intro cfgE cfgB
  constructor <;> rfl

/-! ## Page controller (`browser_utils/page_controller.py`): data model -/

/-- The controls the adjustment pass touches. -/
inductive Param
  | temperature | maxTokens | stopSeqs | topP
  | thinkingToggle | budgetToggle | budgetInput
  | googleSearch | urlContext | toolsPanel
  deriving DecidableEq

/-- One observable action of a reconciliation run: acquiring/releasing the
`params_cache_lock`, a surface read (`input_value` / `get_attribute` /
`is_disabled`), a surface write (`fill`, including the `press("Enter")`
that follows a stop-sequence fill), a click, a `save_error_snapshot` call
(tag without the request-id suffix), or the raising of the cancellation
signal (`ClientDisconnectedError`) at a checkpoint. -/
inductive Event
  | lockAcq | lockRel
  | surfRead (p : Param)
  | surfWrite (p : Param)
  | click (p : Param)
  | snapshot (tag : String)
  | cancelRaise
  deriving DecidableEq

/-- `page_params_cache`: last committed external value per parameter; a
missing entry means unknown.  Only these three parameters are ever cached
by the source (`_adjust_top_p` keeps no cache entry). -/
structure Cache where
  temperature : Option ℚ
  max_output_tokens : Option ℤ
  stop_sequences : Option (Finset String)
  deriving DecidableEq

/-- Result of one cache-backed adjustment call: its event trace, the cache
it leaves behind, and whether it re-raised the cancellation signal. -/
structure StepResult where
  events : List Event
  cache : Cache
  cancelled : Bool
  deriving DecidableEq

/-- Failure mode of a Playwright point operation: a `TimeoutError` or any
other raised error.  (Both are caught by `except Exception`; only
`_control_thinking_mode_toggle` distinguishes the timeout.) -/
inductive PwErr
  | timeout | other
  deriving DecidableEq

/-- Outcome of a read call site: the Playwright call raising (`err`), or a
returned string whose parse to the expected numeric type fails
(`ok none`, the `ValueError` case) or succeeds (`ok (some v)`). -/
inductive ReadRes (α : Type)
  | err (e : PwErr)
  | ok (v : Option α)
  deriving DecidableEq

/-- Outcome of an orchestrator run: normal return, cancellation signal
raised, or a non-cancellation Python error escaping. -/
inductive Outcome
  | ok | cancelled | pyError
  deriving DecidableEq

/-! ## Value reconciler: temperature (`_adjust_temperature`) -/

/-- Outcomes of the Playwright calls made by one `_adjust_temperature`
run, one field per call site, plus the polled value of
`check_client_disconnected` at each of its three checkpoints. -/
structure TempEnv where
  /-- `expect_async(...).to_be_visible` succeeds. -/
  visibleOk : Bool
  /-- checkpoint 温度调整 - 输入框可见后 -/
  cancelAfterVisible : Bool
  /-- first `input_value` (`.error` = the call raises) followed by
  `float(...)` (`.ok none` = `ValueError`). -/
  read1 : ReadRes ℚ
  /-- checkpoint 温度调整 - 读取输入框值后 (polled before the float parse) -/
  cancelAfterRead : Bool
  /-- `fill(str(clamped))` succeeds. -/
  fillOk : Bool
  /-- checkpoint 温度调整 - 填充输入框后 -/
  cancelAfterFill : Bool
  /-- verification `input_value` + `float(...)`. -/
  read2 : ReadRes ℚ
  deriving DecidableEq

/-- `max(0.0, min(2.0, temperature))`. -/
def clampTemp (t : ℚ) : ℚ := max 0 (min 2 t)

/-- `abs(a - b) < 0.001`. -/
def tempClose (a b : ℚ) : Bool := |a - b| < 1 / 1000

/-- The body of `_adjust_temperature` past the cache fast path: the `try`
block, with each `except` branch evicting the cache entry, taking a
snapshot, and re-raising only the cancellation signal.  Returns the events
of this section, the resulting cache and the cancellation flag. -/
def tempInteract (env : TempEnv) (clamped : ℚ) (cache : Cache) :
    List Event × Cache × Bool :=
  let evict : Cache := { cache with temperature := none }
  if !env.visibleOk then
    ([.snapshot "temperature_playwright_error"], evict, false)
  else if env.cancelAfterVisible then
    ([.cancelRaise, .snapshot "temperature_playwright_error"], evict, true)
  else
    match env.read1 with
    | .err _ =>
      ([.surfRead .temperature, .snapshot "temperature_playwright_error"], evict, false)
    | .ok parsed =>
      if env.cancelAfterRead then
        ([.surfRead .temperature, .cancelRaise,
          .snapshot "temperature_playwright_error"], evict, true)
      else
        match parsed with
        | none =>
          ([.surfRead .temperature, .snapshot "temperature_value_error"], evict, false)
        | some cur =>
          if tempClose cur clamped then
            ([.surfRead .temperature], { cache with temperature := some cur }, false)
          else if !env.fillOk then
            ([.surfRead .temperature, .surfWrite .temperature,
              .snapshot "temperature_playwright_error"], evict, false)
          else if env.cancelAfterFill then
            ([.surfRead .temperature, .surfWrite .temperature, .cancelRaise,
              .snapshot "temperature_playwright_error"], evict, true)
          else
            match env.read2 with
            | .err _ =>
              ([.surfRead .temperature, .surfWrite .temperature, .surfRead .temperature,
                .snapshot "temperature_playwright_error"], evict, false)
            | .ok none =>
              ([.surfRead .temperature, .surfWrite .temperature, .surfRead .temperature,
                .snapshot "temperature_value_error"], evict, false)
            | .ok (some v) =>
              if tempClose v clamped then
                ([.surfRead .temperature, .surfWrite .temperature, .surfRead .temperature],
                 { cache with temperature := some v }, false)
              else
                ([.surfRead .temperature, .surfWrite .temperature, .surfRead .temperature,
                  .snapshot "temperature_verify_fail"], evict, false)

/-- `async with params_cache_lock:` — the lock is acquired before the body
and released on every exit, exceptional or not. -/
def lockWrap (body : List Event × Cache × Bool) : StepResult where
  events := Event.lockAcq :: body.1 ++ [Event.lockRel]
  cache := body.2.1
  cancelled := body.2.2

/-- The lock-protected body of `_adjust_temperature`: clamp to `[0, 2]`,
then skip all surface interaction when a cache entry lies within `0.001`
of the clamped value. -/
def tempBody (env : TempEnv) (temperature : ℚ) (cache : Cache) :
    List Event × Cache × Bool :=
  let clamped := clampTemp temperature
  match cache.temperature with
  | some c =>
    if tempClose c clamped then ([], cache, false)
    else tempInteract env clamped cache
  | none => tempInteract env clamped cache

/-- `_adjust_temperature`: the whole call runs under the cache lock. -/
def adjustTemperature (env : TempEnv) (temperature : ℚ) (cache : Cache) : StepResult :=
  lockWrap (tempBody env temperature cache)

/-! ## Value reconciler: max output tokens (`_adjust_max_tokens`) -/

/-- One entry of `parsed_model_list` as `_adjust_max_tokens` consumes it:
its id and its `supported_max_output_tokens` after the `int(...)` parse
(`none` = key absent, value `None`, or unparsable — all of which leave the
default ceiling in place). -/
structure ModelEntry where
  id : String
  supported_max_output_tokens : Option ℤ
  deriving DecidableEq

/-- The max-token ceiling: 65536 unless a truthy `model_id_to_use` is found
in a non-empty `parsed_model_list` with a positive
`supported_max_output_tokens`. -/
def lookupCeiling (modelId : String) (models : List ModelEntry) : ℤ :=
  let dflt : ℤ := 65536
  if modelId ≠ "" ∧ models ≠ [] then
    match models.find? (fun m => m.id == modelId) with
    | some m =>
      match m.supported_max_output_tokens with
      | some s => if s > 0 then s else dflt
      | none => dflt
    | none => dflt
  else dflt

/-- `max(1, min(ceiling, max_tokens))`. -/
def clampMaxTokens (modelId : String) (models : List ModelEntry) (mt : ℤ) : ℤ :=
  max 1 (min (lookupCeiling modelId models) mt)

/-- Playwright/checkpoint outcomes for one `_adjust_max_tokens` run.  The
source polls the disconnect predicate after the visibility wait and after
the fill; there is no checkpoint between the first read and its parse. -/
structure MaxTokensEnv where
  visibleOk : Bool
  /-- checkpoint 最大输出Token调整 - 输入框可见后 -/
  cancelAfterVisible : Bool
  read1 : ReadRes ℤ
  fillOk : Bool
  /-- checkpoint 最大输出Token调整 - 填充输入框后 -/
  cancelAfterFill : Bool
  read2 : ReadRes ℤ
  deriving DecidableEq

/-- The `try` block of `_adjust_max_tokens` past the cache fast path. -/
def maxTokensInteract (env : MaxTokensEnv) (clamped : ℤ) (cache : Cache) :
    List Event × Cache × Bool :=
  let evict : Cache := { cache with max_output_tokens := none }
  if !env.visibleOk then
    ([.snapshot "max_tokens_error"], evict, false)
  else if env.cancelAfterVisible then
    ([.cancelRaise, .snapshot "max_tokens_error"], evict, true)
  else
    match env.read1 with
    | .err _ =>
      ([.surfRead .maxTokens, .snapshot "max_tokens_error"], evict, false)
    | .ok none =>
      ([.surfRead .maxTokens, .snapshot "max_tokens_value_error"], evict, false)
    | .ok (some cur) =>
      if cur = clamped then
        ([.surfRead .maxTokens], { cache with max_output_tokens := some cur }, false)
      else if !env.fillOk then
        ([.surfRead .maxTokens, .surfWrite .maxTokens,
          .snapshot "max_tokens_error"], evict, false)
      else if env.cancelAfterFill then
        ([.surfRead .maxTokens, .surfWrite .maxTokens, .cancelRaise,
          .snapshot "max_tokens_error"], evict, true)
      else
        match env.read2 with
        | .err _ =>
          ([.surfRead .maxTokens, .surfWrite .maxTokens, .surfRead .maxTokens,
            .snapshot "max_tokens_error"], evict, false)
        | .ok none =>
          ([.surfRead .maxTokens, .surfWrite .maxTokens, .surfRead .maxTokens,
            .snapshot "max_tokens_value_error"], evict, false)
        | .ok (some v) =>
          if v = clamped then
            ([.surfRead .maxTokens, .surfWrite .maxTokens, .surfRead .maxTokens],
             { cache with max_output_tokens := some v }, false)
          else
            ([.surfRead .maxTokens, .surfWrite .maxTokens, .surfRead .maxTokens,
              .snapshot "max_tokens_verify_fail"], evict, false)

/-- The lock-protected body of `_adjust_max_tokens`: clamp to
`[1, ceiling]`, then skip all surface interaction when a cache entry
equals the clamped value. -/
def maxTokensBody (env : MaxTokensEnv) (maxTokens : ℤ) (modelId : String)
    (models : List ModelEntry) (cache : Cache) : List Event × Cache × Bool :=
  let clamped := clampMaxTokens modelId models maxTokens
  match cache.max_output_tokens with
  | some c =>
    if c = clamped then ([], cache, false)
    else maxTokensInteract env clamped cache
  | none => maxTokensInteract env clamped cache

/-- `_adjust_max_tokens`: the whole call runs under the cache lock. -/
def adjustMaxTokens (env : MaxTokensEnv) (maxTokens : ℤ) (modelId : String)
    (models : List ModelEntry) (cache : Cache) : StepResult :=
  lockWrap (maxTokensBody env maxTokens modelId models cache)

/-! ## Value reconciler: stop sequences (`_adjust_stop_sequences`) -/

/-- The `stop` request value: Python `None`, a single string, a list whose
non-string members are skipped (`some s` = a string element), or any other
object (normalized to the empty set). -/
inductive StopInput
  | null
  | str (s : String)
  | list (l : List (Option String))
  | other
  deriving DecidableEq

/-- `normalized_requested_stops`: the set of stripped, non-empty strings
drawn from the request value. -/
def normStops : StopInput → Finset String
  | .null => ∅
  | .str s => if pyStrip s ≠ "" then {pyStrip s} else ∅
  | .list l =>
    l.foldl (fun acc x =>
      match x with
      | some s => if pyStrip s ≠ "" then insert (pyStrip s) acc else acc
      | none => acc) ∅
  | .other => ∅

/-- Surface behaviour for one `_adjust_stop_sequences` run.  The chip
removal loop polls the disconnect predicate once per iteration
(`cancelChip k`, where `k` is the number of chips removed so far) and each
removal click may raise (`chipClickFail k`, which breaks the loop); a
successful click removes one chip.  Each requested sequence is then filled
and committed with Enter; `fillFail k` is the k-th insertion raising. -/
structure StopEnv where
  /-- `remove_chip_buttons_locator.count()` at loop entry. -/
  chips : ℕ
  cancelChip : ℕ → Bool
  chipClickFail : ℕ → Bool
  /-- the stop-sequence input's visibility wait succeeds. -/
  visibleOk : Bool
  fillFail : ℕ → Bool

/-- The chip removal loop (`while count() > 0 and removed_count <
max_removals`), with the iteration budget `max_removals - removed_count`
passed as fuel.  Returns the loop's events and whether the checkpoint
raised the cancellation signal. -/
def chipLoop (cancel clickFail : ℕ → Bool) : ℕ → ℕ → ℕ → List Event × Bool
  | 0, _, _ => ([], false)
  | _ + 1, 0, _ => ([], false)
  | fuel + 1, chips + 1, removed =>
    if cancel removed then ([.cancelRaise], true)
    else if clickFail removed then ([], false)
    else
      let r := chipLoop cancel clickFail fuel chips (removed + 1)
      (Event.click Param.stopSeqs :: r.1, r.2)

/-- The insertion loop (`for seq in normalized_requested_stops: fill;
press Enter`); a raise propagates to the enclosing handler. -/
def fillLoop (fail : ℕ → Bool) : List String → ℕ → List Event × Bool
  | [], _ => ([], false)
  | _ :: rest, k =>
    if fail k then ([.surfWrite .stopSeqs], true)
    else
      let r := fillLoop fail rest (k + 1)
      (Event.surfWrite Param.stopSeqs :: r.1, r.2)

/-- `_adjust_stop_sequences`: runs entirely under the cache lock; a cache
entry equal (as a set) to the normalized request skips all surface
interaction; otherwise all chips are removed (bounded loop), the desired
entries are inserted one at a time, and the fully-normalized set is
committed to the cache; any raise evicts the entry and takes a snapshot,
re-raising only the cancellation signal. -/
def stopBody (env : StopEnv) (stop : StopInput) (cache : Cache) :
    List Event × Cache × Bool :=
  let normalized := normStops stop
  let evict : Cache := { cache with stop_sequences := none }
  if cache.stop_sequences = some normalized then ([], cache, false)
  else
    let chip := chipLoop env.cancelChip env.chipClickFail (env.chips + 5) env.chips 0
    if chip.2 then
      (chip.1 ++ [.snapshot "stop_sequence_error"], evict, true)
    else if normalized ≠ ∅ then
      if !env.visibleOk then
        (chip.1 ++ [.snapshot "stop_sequence_error"], evict, false)
      else
        let fills := fillLoop env.fillFail (normalized.sort (· ≤ ·)) 0
        if fills.2 then
          (chip.1 ++ fills.1 ++ [.snapshot "stop_sequence_error"], evict, false)
        else
          (chip.1 ++ fills.1, { cache with stop_sequences := some normalized }, false)
    else
      (chip.1, { cache with stop_sequences := some normalized }, false)

/-- `_adjust_stop_sequences`: the whole call runs under the cache lock. -/
def adjustStopSequences (env : StopEnv) (stop : StopInput) (cache : Cache) :
    StepResult :=
  lockWrap (stopBody env stop cache)

/-! ## Value adjuster without lock or cache: top-p (`_adjust_top_p`) -/

/-- Playwright/checkpoint outcomes for one `_adjust_top_p` run. -/
structure TopPEnv where
  visibleOk : Bool
  /-- checkpoint Top P 调整 - 输入框可见后 -/
  cancelAfterVisible : Bool
  read1 : ReadRes ℚ
  fillOk : Bool
  /-- checkpoint Top P 调整 - 填充输入框后 -/
  cancelAfterFill : Bool
  read2 : ReadRes ℚ
  deriving DecidableEq

/-- `max(0.0, min(1.0, top_p))`. -/
def clampTopP (p : ℚ) : ℚ := max 0 (min 1 p)

/-- `abs(a - b) > 1e-9`. -/
def topPDiffer (a b : ℚ) : Bool := |a - b| > 1 / 1000000000

/-- `_adjust_top_p`.  Unlike the other three value adjusters it takes
neither the cache lock nor the cache: its signature in the source is
`(self, top_p, check_client_disconnected)` and its body never touches
`page_params_cache` or `params_cache_lock`.  Returns the events and the
cancellation flag. -/
def adjustTopP (env : TopPEnv) (topP : ℚ) : List Event × Bool :=
  let clamped := clampTopP topP
  if !env.visibleOk then ([.snapshot "top_p_error"], false)
  else if env.cancelAfterVisible then ([.cancelRaise, .snapshot "top_p_error"], true)
  else
    match env.read1 with
    | .err _ => ([.surfRead .topP, .snapshot "top_p_error"], false)
    | .ok none => ([.surfRead .topP, .snapshot "top_p_value_error"], false)
    | .ok (some cur) =>
      if topPDiffer cur clamped then
        if !env.fillOk then
          ([.surfRead .topP, .surfWrite .topP, .snapshot "top_p_error"], false)
        else if env.cancelAfterFill then
          ([.surfRead .topP, .surfWrite .topP, .cancelRaise,
            .snapshot "top_p_error"], true)
        else
          match env.read2 with
          | .err _ =>
            ([.surfRead .topP, .surfWrite .topP, .surfRead .topP,
              .snapshot "top_p_error"], false)
          | .ok none =>
            ([.surfRead .topP, .surfWrite .topP, .surfRead .topP,
              .snapshot "top_p_value_error"], false)
          | .ok (some v) =>
            if topPDiffer v clamped then
              ([.surfRead .topP, .surfWrite .topP, .surfRead .topP,
                .snapshot "top_p_verify_fail"], false)
            else
              ([.surfRead .topP, .surfWrite .topP, .surfRead .topP], false)
      else
        ([.surfRead .topP], false)

/-! ## Toggle controllers -/

/-- Result of `_control_thinking_mode_toggle`: the returned Boolean, the
events, and whether the cancellation signal was re-raised. -/
structure ToggleResult where
  ret : Bool
  events : List Event
  cancelled : Bool
  deriving DecidableEq

/-- Surface behaviour for one `_control_thinking_mode_toggle` run.  Each
Playwright call site may succeed (`none`) or raise (`some .timeout`,
caught by the dedicated `except TimeoutError` handler with no snapshot, or
`some .other`, caught by `except Exception` with a snapshot). -/
structure ModeToggleEnv where
  visibleRes : Option PwErr
  /-- checkpoint 主思考开关 - 元素可见后 -/
  cancelAfterVisible : Bool
  /-- the `is_disabled()` / `get_attribute("aria-checked")` pair raising. -/
  stateRes : Option PwErr
  disabled : Bool
  /-- `aria-checked == "true"` before any click. -/
  checked : Bool
  clickRes : Option PwErr
  /-- checkpoint 主思考开关 - 点击后 -/
  cancelAfterClick : Bool
  read2Res : Option PwErr
  /-- `aria-checked == "true"` re-read after the click. -/
  checkedAfter : Bool
  deriving DecidableEq

/-- `_control_thinking_mode_toggle` (the "v2" master thinking switch):
reads the disabled flag and the checked state; a disabled control is a
no-op success when already in the desired state and a failure otherwise; an
enabled control in the wrong state is clicked exactly once, re-read, and
the match reported. -/
def controlThinkingModeToggle (env : ModeToggleEnv) (shouldBeEnabled : Bool) :
    ToggleResult :=
  let tag := "thinking_mode_toggle_error_v2"
  match env.visibleRes with
  | some .timeout => ⟨false, [], false⟩
  | some .other => ⟨false, [.snapshot tag], false⟩
  | none =>
    if env.cancelAfterVisible then ⟨false, [.cancelRaise, .snapshot tag], true⟩
    else
      match env.stateRes with
      | some .timeout => ⟨false, [.surfRead .thinkingToggle], false⟩
      | some .other => ⟨false, [.surfRead .thinkingToggle, .snapshot tag], false⟩
      | none =>
        let evs0 := [Event.surfRead .thinkingToggle, Event.surfRead .thinkingToggle]
        if env.disabled then
          if env.checked == shouldBeEnabled then ⟨true, evs0, false⟩
          else ⟨false, evs0, false⟩
        else if env.checked != shouldBeEnabled then
          match env.clickRes with
          | some .timeout => ⟨false, evs0 ++ [.click .thinkingToggle], false⟩
          | some .other => ⟨false, evs0 ++ [.click .thinkingToggle, .snapshot tag], false⟩
          | none =>
            if env.cancelAfterClick then
              ⟨false, evs0 ++ [.click .thinkingToggle, .cancelRaise, .snapshot tag], true⟩
            else
              match env.read2Res with
              | some .timeout =>
                ⟨false, evs0 ++ [.click .thinkingToggle, .surfRead .thinkingToggle], false⟩
              | some .other =>
                ⟨false, evs0 ++ [.click .thinkingToggle, .surfRead .thinkingToggle,
                                 .snapshot tag], false⟩
              | none =>
                ⟨env.checkedAfter == shouldBeEnabled,
                 evs0 ++ [.click .thinkingToggle, .surfRead .thinkingToggle], false⟩
        else ⟨true, evs0, false⟩

/-- Surface behaviour for one `_control_thinking_budget_toggle` run.  The
element carries a disabled flag like any slide toggle, but this function
never reads it — the source contains no `is_disabled` call — so the field
is deliberately unused by the definition below.  All its Playwright errors
are swallowed by a single `except Exception` with no snapshot. -/
structure BudgetToggleEnv where
  visibleOk : Bool
  /-- checkpoint 思考预算开关 - 元素可见后 -/
  cancelAfterVisible : Bool
  checkedReadOk : Bool
  disabled : Bool
  /-- `aria-checked == "true"` before any click. -/
  checked : Bool
  clickOk : Bool
  /-- checkpoint 思考预算开关 - 点击后 -/
  cancelAfterClick : Bool
  deriving DecidableEq

/-- `_control_thinking_budget_toggle`: compares `aria-checked` against the
desired state and clicks once on mismatch (whatever the disabled flag
holds); the post-click re-read only feeds logging.  The Python function
returns `None` — there is no success value — so the embedding returns only
the events and the cancellation flag. -/
def controlThinkingBudgetToggle (env : BudgetToggleEnv) (shouldBeChecked : Bool) :
    List Event × Bool :=
  if !env.visibleOk then ([], false)
  else if env.cancelAfterVisible then ([.cancelRaise], true)
  else if !env.checkedReadOk then ([.surfRead .budgetToggle], false)
  else if env.checked != shouldBeChecked then
    if !env.clickOk then ([.surfRead .budgetToggle, .click .budgetToggle], false)
    else if env.cancelAfterClick then
      ([.surfRead .budgetToggle, .click .budgetToggle, .cancelRaise], true)
    else
      ([.surfRead .budgetToggle, .click .budgetToggle, .surfRead .budgetToggle], false)
  else ([.surfRead .budgetToggle], false)

/-- Surface behaviour for one `_set_thinking_budget_value` run.  The
read-back and its `int(...)` comparison only feed logging, and every
non-cancellation error is swallowed with no snapshot. -/
structure SetBudgetEnv where
  visibleOk : Bool
  /-- checkpoint 思考预算调整 - 输入框可见后 -/
  cancelAfterVisible : Bool
  fillOk : Bool
  /-- checkpoint 思考预算调整 - 填充输入框后 -/
  cancelAfterFill : Bool
  deriving DecidableEq

/-- `_set_thinking_budget_value`: fill the budget input with
`str(token_budget)` and re-read for a logged verification. -/
def setThinkingBudgetValue (env : SetBudgetEnv) (_tokenBudget : Option ℤ) :
    List Event × Bool :=
  if !env.visibleOk then ([], false)
  else if env.cancelAfterVisible then ([.cancelRaise], true)
  else if !env.fillOk then ([.surfWrite .budgetInput], false)
  else if env.cancelAfterFill then ([.surfWrite .budgetInput, .cancelRaise], true)
  else ([.surfWrite .budgetInput, .surfRead .budgetInput], false)

/-! ## Tools panel and URL context -/

/-- Python `"expanded" not in class_string.split()`: whitespace-run split. -/
def wsSplitAux (cur : List Char) : List Char → List (List Char)
  | [] => if cur = [] then [] else [cur.reverse]
  | c :: rest =>
    if isPySpace c then
      if cur = [] then wsSplitAux [] rest
      else cur.reverse :: wsSplitAux [] rest
    else wsSplitAux (c :: cur) rest

/-- Whether the class string contains the token `expanded`. -/
def hasExpanded (s : String) : Bool :=
  (wsSplitAux [] s.data).contains "expanded".data

/-- Surface behaviour for one `_ensure_tools_panel_expanded` run.
`classAttr` is the grandparent's `class` attribute: `.err` = the call
raises, `.ok none` = attribute absent (Python `None`), `.ok (some s)` = its
value. -/
structure PanelEnv where
  visibleOk : Bool
  classAttr : ReadRes String
  clickOk : Bool
  /-- checkpoint 展开工具面板后 -/
  cancelAfterClick : Bool
  /-- `expect_async(...).to_have_class(... expanded ...)` succeeds
  (failure is swallowed). -/
  waitExpandedOk : Bool
  deriving DecidableEq

/-- `_ensure_tools_panel_expanded`: click the collapse button when the
class attribute is truthy and lacks the `expanded` token. -/
def ensureToolsPanelExpanded (env : PanelEnv) : List Event × Bool :=
  if !env.visibleOk then ([], false)
  else
    match env.classAttr with
    | .err _ => ([.surfRead .toolsPanel], false)
    | .ok none => ([.surfRead .toolsPanel], false)
    | .ok (some s) =>
      if s ≠ "" && !hasExpanded s then
        if !env.clickOk then ([.surfRead .toolsPanel, .click .toolsPanel], false)
        else if env.cancelAfterClick then
          ([.surfRead .toolsPanel, .click .toolsPanel, .cancelRaise], true)
        else ([.surfRead .toolsPanel, .click .toolsPanel], false)
      else ([.surfRead .toolsPanel], false)

/-- Surface behaviour for one `_open_url_content` run. -/
structure UrlEnv where
  visibleOk : Bool
  /-- `aria-checked` attribute: raise / absent / value. -/
  checkedAttr : ReadRes String
  clickOk : Bool
  /-- checkpoint 点击URLCONTEXT后 -/
  cancelAfterClick : Bool
  deriving DecidableEq

/-- `_open_url_content`: click the URL-context toggle when `aria-checked`
is the string `"false"`; no verification re-read. -/
def openUrlContext (env : UrlEnv) : List Event × Bool :=
  if !env.visibleOk then ([], false)
  else
    match env.checkedAttr with
    | .err _ => ([.surfRead .urlContext], false)
    | .ok val =>
      if val = some "false" then
        if !env.clickOk then ([.surfRead .urlContext, .click .urlContext], false)
        else if env.cancelAfterClick then
          ([.surfRead .urlContext, .click .urlContext, .cancelRaise], true)
        else ([.surfRead .urlContext, .click .urlContext], false)
      else ([.surfRead .urlContext], false)

/-! ## Google-search decision and toggle (`_should_enable_google_search`,
`_adjust_google_search`) -/

/-- The `function` member of one tools entry: absent (so `.get('function',
{})` yields `{}`), a dict with an optional `name`, or a non-dict value
(including `None`), on which the chained `.get('name')` raises
`AttributeError`. -/
inductive FuncField
  | absent
  | sub (name : Option String)
  | nonDict
  deriving DecidableEq

/-- One entry of the `tools` list: a dict, with `gsr` recording whether
`google_search_retrieval` is present with a non-`None` value, or a
non-dict entry (skipped by the `isinstance` guard). -/
inductive ToolEntry
  | dict (gsr : Bool) (function : FuncField)
  | notDict
  deriving DecidableEq

/-- The `tools` request field: absent, present as `None`, a list, or some
other non-`None` value. -/
inductive ToolsField
  | absent
  | null
  | list (l : List ToolEntry)
  | notList
  deriving DecidableEq

/-- The scan loop of `_should_enable_google_search`: first entry declaring
a google-search tool wins; an entry whose `function` member is a non-dict
value raises `AttributeError` (`.error ()`), which nothing in the method
catches. -/
def scanTools : List ToolEntry → Except Unit Bool
  | [] => .ok false
  | .notDict :: rest => scanTools rest
  | .dict gsr function :: rest =>
    if gsr then .ok true
    else
      match function with
      | .nonDict => .error ()
      | .absent => scanTools rest
      | .sub name => if name = some "googleSearch" then .ok true else scanTools rest

/-- `_should_enable_google_search`: a present, non-null `tools` field is
scanned (a non-list value scans as "no google tool"); otherwise the global
`ENABLE_GOOGLE_SEARCH` default decides. -/
def shouldEnableGoogleSearch (cfgSearch : Bool) (tools : ToolsField) :
    Except Unit Bool :=
  match tools with
  | .absent => .ok cfgSearch
  | .null => .ok cfgSearch
  | .list l => scanTools l
  | .notList => .ok false

/-- Surface behaviour for one `_adjust_google_search` run.  The post-click
re-read feeds only logging. -/
structure SearchEnv where
  visibleOk : Bool
  /-- checkpoint Google Search 开关 - 元素可见后 -/
  cancelAfterVisible : Bool
  checkedAttr : ReadRes String
  clickOk : Bool
  /-- checkpoint Google Search 开关 - 点击后 -/
  cancelAfterClick : Bool
  deriving DecidableEq

/-- `_adjust_google_search`: decides the desired state (outside the `try`
block, so an `AttributeError` from the scan escapes the method), then
drives the toggle to it with at most one click. -/
def adjustGoogleSearch (env : SearchEnv) (cfgSearch : Bool) (tools : ToolsField) :
    List Event × Outcome :=
  match shouldEnableGoogleSearch cfgSearch tools with
  | .error _ => ([], .pyError)
  | .ok should =>
    if !env.visibleOk then ([], .ok)
    else if env.cancelAfterVisible then ([.cancelRaise], .cancelled)
    else
      match env.checkedAttr with
      | .err _ => ([.surfRead .googleSearch], .ok)
      | .ok val =>
        let cur := val = some "true"
        if should != cur then
          if !env.clickOk then ([.surfRead .googleSearch, .click .googleSearch], .ok)
          else if env.cancelAfterClick then
            ([.surfRead .googleSearch, .click .googleSearch, .cancelRaise], .cancelled)
          else
            ([.surfRead .googleSearch, .click .googleSearch, .surfRead .googleSearch],
             .ok)
        else ([.surfRead .googleSearch], .ok)

/-! ## Thinking-budget handling and the orchestrator -/

/-- Surface behaviour for one `_handle_thinking_budget` run. -/
structure ThinkingEnv where
  mode : ModeToggleEnv
  budget : BudgetToggleEnv
  setb : SetBudgetEnv
  deriving DecidableEq

/-- `_handle_thinking_budget`: resolve the directive, drive the master
toggle; when thinking is disabled but the master toggle cannot be turned
off, fall back to enabling the budget limiter with a budget of 0; when
thinking is enabled, drive the budget limiter to the directive's
`budget_enabled` and, when limited, fill the budget value. -/
def handleThinkingBudget (env : ThinkingEnv) (cfgEnable : Bool) (cfgBudget : ℤ)
    (rf : Option ReasoningField) : List Event × Bool :=
  let directive := normalize_thinking_directive cfgEnable cfgBudget rf
  if !directive.thinking_enabled then
    let r := controlThinkingModeToggle env.mode false
    if r.cancelled then (r.events, true)
    else if !r.ret then
      let b := controlThinkingBudgetToggle env.budget true
      if b.2 then (r.events ++ b.1, true)
      else
        let s := setThinkingBudgetValue env.setb (some 0)
        (r.events ++ b.1 ++ s.1, s.2)
    else (r.events, false)
  else
    let r := controlThinkingModeToggle env.mode true
    if r.cancelled then (r.events, true)
    else if !directive.budget_enabled then
      let b := controlThinkingBudgetToggle env.budget false
      (r.events ++ b.1, b.2)
    else
      let b := controlThinkingBudgetToggle env.budget true
      if b.2 then (r.events ++ b.1, true)
      else
        let s := setThinkingBudgetValue env.setb directive.budget_value
        (r.events ++ b.1 ++ s.1, s.2)

/-- The caller's request, field per field as `adjust_parameters` reads it
with `request_params.get(key, DEFAULT)`: `none` = key absent (the
configuration default applies). -/
structure RequestParams where
  temperature : Option ℚ
  max_output_tokens : Option ℤ
  stop : Option StopInput
  top_p : Option ℚ
  tools : ToolsField
  reasoning_effort : Option ReasoningField

/-- The process-wide configuration constants consumed by the adjustment
pass. -/
structure Config where
  defaultTemperature : ℚ
  defaultMaxOutputTokens : ℤ
  defaultStopSequences : StopInput
  defaultTopP : ℚ
  enableUrlContext : Bool
  enableThinkingBudget : Bool
  defaultThinkingBudget : ℤ
  enableGoogleSearch : Bool

/-- Surface behaviour for one whole `adjust_parameters` run: one
environment per step plus the disconnect polls between steps. -/
structure OrchEnv where
  cancelStart : Bool
  temp : TempEnv
  cancelAfterTemp : Bool
  maxT : MaxTokensEnv
  cancelAfterMax : Bool
  stop : StopEnv
  cancelAfterStop : Bool
  topP : TopPEnv
  cancelEnd : Bool
  panel : PanelEnv
  url : UrlEnv
  thinking : ThinkingEnv
  search : SearchEnv

/-- Result of an `adjust_parameters` run. -/
structure OrchResult where
  events : List Event
  cache : Cache
  outcome : Outcome

/-- One sequential stage of `adjust_parameters`: given the cache it
receives, it produces its events, the cache it leaves, and whether it
returned normally, raised the cancellation signal, or raised another
Python error. -/
def StepFn : Type := Cache → List Event × Cache × Outcome

/-- Sequential composition with exception semantics: a stage that does not
return normally aborts the remaining stages, exactly as an exception
raised inside `adjust_parameters` (which catches nothing itself) skips the
rest of the method. -/
def runSteps : List StepFn → Cache → OrchResult
  | [], cache => ⟨[], cache, .ok⟩
  | s :: rest, cache =>
    let r := s cache
    match r.2.2 with
    | .ok =>
      let rr := runSteps rest r.2.1
      ⟨r.1 ++ rr.events, rr.cache, rr.outcome⟩
    | o => ⟨r.1, r.2.1, o⟩

/-- An `await self._check_disconnect(...)` between steps: raises the
cancellation signal when the poll is positive. -/
def checkpointStep (flag : Bool) : StepFn := fun cache =>
  if flag then ([.cancelRaise], cache, .cancelled) else ([], cache, .ok)

/-- Lift a `StepResult`-producing adjuster into a stage. -/
def liftStep (f : Cache → StepResult) : StepFn := fun cache =>
  let r := f cache
  (r.events, r.cache, if r.cancelled then Outcome.cancelled else Outcome.ok)

/-- Lift a cache-free step (top-p, panel, URL context, thinking budget)
into a stage. -/
def liftNoCache (r : List Event × Bool) : StepFn := fun cache =>
  (r.1, cache, if r.2 then Outcome.cancelled else Outcome.ok)

/-- The stages of `adjust_parameters`, in source order: disconnect check,
temperature, check, max tokens, check, stop sequences, check, top-p,
check, tools-panel expansion, URL context (behind its feature flag),
thinking-budget handling, google-search toggle. -/
def orchSteps (env : OrchEnv) (req : RequestParams) (cfg : Config)
    (modelId : String) (models : List ModelEntry) : List StepFn :=
  [ checkpointStep env.cancelStart
  , liftStep (adjustTemperature env.temp (req.temperature.getD cfg.defaultTemperature))
  , checkpointStep env.cancelAfterTemp
  , liftStep (fun cache => adjustMaxTokens env.maxT
      (req.max_output_tokens.getD cfg.defaultMaxOutputTokens) modelId models cache)
  , checkpointStep env.cancelAfterMax
  , liftStep (adjustStopSequences env.stop (req.stop.getD cfg.defaultStopSequences))
  , checkpointStep env.cancelAfterStop
  , liftNoCache (adjustTopP env.topP (req.top_p.getD cfg.defaultTopP))
  , checkpointStep env.cancelEnd
  , liftNoCache (ensureToolsPanelExpanded env.panel)
  , liftNoCache (if cfg.enableUrlContext then openUrlContext env.url else ([], false))
  , liftNoCache (handleThinkingBudget env.thinking cfg.enableThinkingBudget
      cfg.defaultThinkingBudget req.reasoning_effort)
  , fun cache =>
      let r := adjustGoogleSearch env.search cfg.enableGoogleSearch req.tools
      (r.1, cache, r.2)
  ]

/-- `adjust_parameters`: runs the stages in order; a cancellation anywhere
aborts the rest and propagates, every other per-step failure is swallowed
inside its step, and the google-search scan may raise out of the whole
pass. -/
def adjustParameters (env : OrchEnv) (req : RequestParams) (cfg : Config)
    (modelId : String) (models : List ModelEntry) (cache : Cache) : OrchResult :=
  runSteps (orchSteps env req cfg modelId models) cache

/-! ## Lock discipline (C1) and fast-path idempotence (C8) -/

/-- Lock events. -/
def isLockEvent : Event → Bool
  | .lockAcq => true
  | .lockRel => true
  | _ => false

/-- A trace that acquires the cache lock first, releases it last, and does
everything else strictly in between. -/
def lockBracketed (evs : List Event) : Bool :=
  evs.head? == some Event.lockAcq &&
  evs.getLast? == some Event.lockRel &&
  ((evs.drop 1).dropLast.all fun e => !isLockEvent e)

theorem lockBracketed_wrap (body : List Event × Cache × Bool)
    (h : (body.1.all fun e => !isLockEvent e) = true) :
    lockBracketed (lockWrap body).events = true := by
  simp only [lockWrap, lockBracketed]
  rw [List.getLast?_concat]
  simp_all [List.cons_append, List.head?, List.dropLast_concat, List.all_eq_true]

theorem chipLoop_no_lock (cancel fail : ℕ → Bool) :
    ∀ (fuel chips removed : ℕ),
      ((chipLoop cancel fail fuel chips removed).1.all fun e => !isLockEvent e) = true := by
  intro fuel
  induction fuel with
  | zero => intro chips removed; rfl
  | succ n ih =>
      intro chips removed
      cases chips with
      | zero => rfl
      | succ c =>
          simp only [chipLoop]
          split_ifs with h1 h2
          · rfl
          · rfl
          · simpa [isLockEvent] using ih c (removed + 1)

theorem fillLoop_no_lock (fail : ℕ → Bool) :
    ∀ (l : List String) (k : ℕ),
      ((fillLoop fail l k).1.all fun e => !isLockEvent e) = true := by
  intro l
  induction l with
  | nil => intro k; rfl
  | cons s rest ih =>
      intro k
      simp only [fillLoop]
      split_ifs with h
      · rfl
      · simpa [isLockEvent] using ih (k + 1)

theorem tempInteract_no_lock (env : TempEnv) (clamped : ℚ) (cache : Cache) :
    ((tempInteract env clamped cache).1.all fun e => !isLockEvent e) = true := by
  unfold tempInteract
  repeat' split
  all_goals rfl

theorem tempBody_no_lock (env : TempEnv) (t : ℚ) (cache : Cache) :
    ((tempBody env t cache).1.all fun e => !isLockEvent e) = true := by
  simp only [tempBody]
  split
  · split_ifs with hc
    · rfl
    · apply tempInteract_no_lock
  · apply tempInteract_no_lock

theorem maxTokensInteract_no_lock (env : MaxTokensEnv) (clamped : ℤ) (cache : Cache) :
    ((maxTokensInteract env clamped cache).1.all fun e => !isLockEvent e) = true := by
  unfold maxTokensInteract
  repeat' split
  all_goals rfl

theorem maxTokensBody_no_lock (env : MaxTokensEnv) (mt : ℤ) (modelId : String)
    (models : List ModelEntry) (cache : Cache) :
    ((maxTokensBody env mt modelId models cache).1.all fun e => !isLockEvent e) = true := by
  simp only [maxTokensBody]
  split
  · split_ifs with hc
    · rfl
    · apply maxTokensInteract_no_lock
  · apply maxTokensInteract_no_lock

theorem stopBody_no_lock (env : StopEnv) (stop : StopInput) (cache : Cache) :
    ((stopBody env stop cache).1.all fun e => !isLockEvent e) = true := by
  have hc := chipLoop_no_lock env.cancelChip env.chipClickFail (env.chips + 5) env.chips 0
  have hf := fillLoop_no_lock env.fillFail ((normStops stop).sort (· ≤ ·)) 0
  simp only [stopBody]
  split_ifs <;> simp_all [List.all_append, isLockEvent]

/-- C1 (amended): the temperature, max-output-tokens and stop-sequence
reconcilers each execute their entire read-compare-write-verify body while
holding the cache lock (every trace acquires the lock first, releases it
last — also on exceptional exits — and performs all surface work strictly
in between) and operate on the shared parameter cache they are handed.
The top-p adjuster, by contrast, is excluded: see the counterexample. -/
theorem lock_discipline_C1_amended :
    (∀ (env : TempEnv) (t : ℚ) (cache : Cache),
       lockBracketed (adjustTemperature env t cache).events = true) ∧
    (∀ (env : MaxTokensEnv) (mt : ℤ) (modelId : String)
       (models : List ModelEntry) (cache : Cache),
       lockBracketed (adjustMaxTokens env mt modelId models cache).events = true) ∧
    (∀ (env : StopEnv) (stop : StopInput) (cache : Cache),
       lockBracketed (adjustStopSequences env stop cache).events = true) :=
  ⟨fun env t cache => lockBracketed_wrap _ (tempBody_no_lock env t cache),
   fun env mt modelId models cache =>
     lockBracketed_wrap _ (maxTokensBody_no_lock env mt modelId models cache),
   fun env stop cache => lockBracketed_wrap _ (stopBody_no_lock env stop cache)⟩

/-- A top-p run in which every surface operation succeeds and the page
already holds the desired value. -/
def topPEnvNoLock : TopPEnv :=
  { visibleOk := true, cancelAfterVisible := false, read1 := .ok (some (1/2)),
    fillOk := true, cancelAfterFill := false, read2 := .ok (some (1/2)) }

/-- C1 counterexample: `_adjust_top_p` performs a surface read with no
lock acquisition or release anywhere in its trace — its signature takes
neither `page_params_cache` nor `params_cache_lock` — so not every value
reconciler runs under the cache lock. -/
theorem lock_discipline_C1_counterexample :
    Event.surfRead Param.topP ∈ (adjustTopP topPEnvNoLock (1/2)).1 ∧
    Event.lockAcq ∉ (adjustTopP topPEnvNoLock (1/2)).1 ∧
    Event.lockRel ∉ (adjustTopP topPEnvNoLock (1/2)).1 := by
  have h2 : topPDiffer (2⁻¹ : ℚ) (clampTopP 2⁻¹) = false := by
    norm_num [topPDiffer, clampTopP]
  simp [adjustTopP, topPEnvNoLock, h2]

/-- C8 (amended): whenever the cache entry equals the **clamped** desired
value — floats within epsilon `0.001`, max-tokens and sets by exact
equality — the reconciler performs zero surface reads and zero surface
writes (its trace is exactly lock acquire/release) and leaves the cache
unchanged.  The comparison the source makes is against the clamped value,
not the raw desired value; see the counterexample. -/
theorem fast_path_idempotence_C8_amended :
    (∀ (env : TempEnv) (t c : ℚ) (cache : Cache),
       cache.temperature = some c → tempClose c (clampTemp t) = true →
       (adjustTemperature env t cache).events = [Event.lockAcq, Event.lockRel] ∧
       (adjustTemperature env t cache).cache = cache) ∧
    (∀ (env : MaxTokensEnv) (mt : ℤ) (modelId : String)
       (models : List ModelEntry) (cache : Cache),
       cache.max_output_tokens = some (clampMaxTokens modelId models mt) →
       (adjustMaxTokens env mt modelId models cache).events
           = [Event.lockAcq, Event.lockRel] ∧
       (adjustMaxTokens env mt modelId models cache).cache = cache) ∧
    (∀ (env : StopEnv) (stop : StopInput) (cache : Cache),
       cache.stop_sequences = some (normStops stop) →
       (adjustStopSequences env stop cache).events
           = [Event.lockAcq, Event.lockRel] ∧
       (adjustStopSequences env stop cache).cache = cache) := by
  refine ⟨?_, ?_, ?_⟩
  · intro env t c cache h hc
    constructor <;> simp [adjustTemperature, tempBody, lockWrap, h, hc]
  · intro env mt modelId models cache h
    constructor <;> simp [adjustMaxTokens, maxTokensBody, lockWrap, h]
  · intro env stop cache h
    constructor <;> simp [adjustStopSequences, stopBody, lockWrap, h]

/-- An idle temperature environment for the fast-path witness. -/
def tempEnvIdle : TempEnv :=
  { visibleOk := true, cancelAfterVisible := false, read1 := .ok (some 1),
    cancelAfterRead := false, fillOk := true, cancelAfterFill := false,
    read2 := .ok (some 1) }

/-- A max-tokens environment in which every surface operation succeeds. -/
def mtEnvBusy : MaxTokensEnv :=
  { visibleOk := true, cancelAfterVisible := false, read1 := .ok (some 65536),
    fillOk := true, cancelAfterFill := false, read2 := .ok (some 65536) }

/-- An always-succeeding stop-sequence environment. -/
def stopEnvIdle : StopEnv :=
  { chips := 0, cancelChip := fun _ => false, chipClickFail := fun _ => false,
    visibleOk := true, fillFail := fun _ => false }

/-- A cache primed with the values the C8 witness asks for. -/
def cacheC8W : Cache :=
  { temperature := some (7/10), max_output_tokens := some 65536,
    stop_sequences := some ∅ }

/-- Witness for C8 at concrete inputs: temperature 0.7 against a cached
0.7, max tokens 65536 against a cached 65536 (default ceiling), and a null
stop field against a cached empty set all skip the surface entirely. -/
theorem fast_path_idempotence_C8_witness :
    ((adjustTemperature tempEnvIdle (7/10) cacheC8W).events
        = [Event.lockAcq, Event.lockRel] ∧
     (adjustTemperature tempEnvIdle (7/10) cacheC8W).cache = cacheC8W) ∧
    ((adjustMaxTokens mtEnvBusy 65536 "" [] cacheC8W).events
        = [Event.lockAcq, Event.lockRel] ∧
     (adjustMaxTokens mtEnvBusy 65536 "" [] cacheC8W).cache = cacheC8W) ∧
    ((adjustStopSequences stopEnvIdle StopInput.null cacheC8W).events
        = [Event.lockAcq, Event.lockRel] ∧
     (adjustStopSequences stopEnvIdle StopInput.null cacheC8W).cache = cacheC8W) :=
  ⟨fast_path_idempotence_C8_amended.1 tempEnvIdle (7/10) (7/10) cacheC8W rfl
     (by norm_num [tempClose, clampTemp]),
   fast_path_idempotence_C8_amended.2.1 mtEnvBusy 65536 "" [] cacheC8W (by decide),
   fast_path_idempotence_C8_amended.2.2 stopEnvIdle StopInput.null cacheC8W (by decide)⟩

/-- A cache holding a (stale, out-of-range) max-tokens value of 70000. -/
def cacheC8 : Cache :=
  { temperature := none, max_output_tokens := some 70000, stop_sequences := none }

/-- C8 counterexample: the desired max-tokens value 70000 equals the
cached value exactly, yet the reconciler reads the surface, because the
source compares the cache against the **clamped** desired value
(`max(1, min(65536, 70000)) = 65536 ≠ 70000`).  A desired value equal to
the cached value therefore does not guarantee zero surface reads. -/
theorem fast_path_idempotence_C8_counterexample :
    cacheC8.max_output_tokens = some 70000 ∧
    Event.surfRead Param.maxTokens
      ∈ (adjustMaxTokens mtEnvBusy 70000 "" [] cacheC8).events := by
  decide

/-! ## Toggle reconciler behaviour (C7) -/

/-- Number of click attempts in a trace. -/
def countClicks (evs : List Event) : ℕ :=
  (evs.filter fun e => match e with | Event.click _ => true | _ => false).length

/-- C7 (amended): the thinking-mode master toggle implements the full
policy: when disabled it returns whether the current checked state equals
the desired one, with zero clicks and no raise; when enabled but in the
wrong state it performs exactly one click, re-reads, and returns whether
the post-click state matches.  Both it and the thinking-budget toggle
never click more than once per call; but the budget toggle does not
implement the disabled branch (see the counterexample) and returns no
success value. -/
theorem toggle_one_click_C7_amended :
    (∀ (env : ModeToggleEnv) (desired : Bool),
       env.visibleRes = none → env.cancelAfterVisible = false → env.stateRes = none →
       env.disabled = true →
       (controlThinkingModeToggle env desired).ret = (env.checked == desired) ∧
       countClicks (controlThinkingModeToggle env desired).events = 0 ∧
       (controlThinkingModeToggle env desired).cancelled = false) ∧
    (∀ (env : ModeToggleEnv) (desired : Bool),
       env.visibleRes = none → env.cancelAfterVisible = false → env.stateRes = none →
       env.disabled = false → env.checked = !desired → env.clickRes = none →
       env.cancelAfterClick = false → env.read2Res = none →
       countClicks (controlThinkingModeToggle env desired).events = 1 ∧
       (controlThinkingModeToggle env desired).ret = (env.checkedAfter == desired)) ∧
    (∀ (env : ModeToggleEnv) (desired : Bool),
       countClicks (controlThinkingModeToggle env desired).events ≤ 1) ∧
    (∀ (env : BudgetToggleEnv) (desired : Bool),
       countClicks (controlThinkingBudgetToggle env desired).1 ≤ 1) := by
  refine ⟨?_, ?_, ?_, ?_⟩
  · intro env desired h1 h2 h3 h4
    refine ⟨?_, ?_, ?_⟩ <;>
      · simp only [controlThinkingModeToggle, h1, h2, h3, h4]
        split_ifs <;> simp_all [countClicks]
  · intro env desired h1 h2 h3 h4 h5 h6 h7 h8
    constructor <;>
      · simp only [controlThinkingModeToggle, h1, h2, h3, h4, h5, h6, h7, h8]
        cases desired <;> simp [countClicks]
  · intro env desired
    unfold controlThinkingModeToggle
    repeat' split
    all_goals simp [countClicks]
  · intro env desired
    unfold controlThinkingBudgetToggle
    repeat' split
    all_goals simp [countClicks]

/-- A disabled, unchecked master thinking toggle. -/
def modeEnvDisabledOff : ModeToggleEnv :=
  { visibleRes := none, cancelAfterVisible := false, stateRes := none,
    disabled := true, checked := false, clickRes := none,
    cancelAfterClick := false, read2Res := none, checkedAfter := false }

/-- An enabled, unchecked master thinking toggle whose click lands. -/
def modeEnvEnabledOff : ModeToggleEnv :=
  { visibleRes := none, cancelAfterVisible := false, stateRes := none,
    disabled := false, checked := false, clickRes := none,
    cancelAfterClick := false, read2Res := none, checkedAfter := true }

/-- Witness for C7: a disabled master toggle already in the desired (off)
state succeeds with zero clicks, the same toggle asked to turn on fails
with zero clicks, and an enabled toggle in the wrong state clicks exactly
once and reports the post-click match. -/
theorem toggle_one_click_C7_witness :
    ((controlThinkingModeToggle modeEnvDisabledOff false).ret = true ∧
     countClicks (controlThinkingModeToggle modeEnvDisabledOff false).events = 0) ∧
    ((controlThinkingModeToggle modeEnvDisabledOff true).ret = false ∧
     countClicks (controlThinkingModeToggle modeEnvDisabledOff true).events = 0) ∧
    (countClicks (controlThinkingModeToggle modeEnvEnabledOff true).events = 1 ∧
     (controlThinkingModeToggle modeEnvEnabledOff true).ret = true) :=
  ⟨⟨(toggle_one_click_C7_amended.1 modeEnvDisabledOff false rfl rfl rfl rfl).1,
    (toggle_one_click_C7_amended.1 modeEnvDisabledOff false rfl rfl rfl rfl).2.1⟩,
   ⟨(toggle_one_click_C7_amended.1 modeEnvDisabledOff true rfl rfl rfl rfl).1,
    (toggle_one_click_C7_amended.1 modeEnvDisabledOff true rfl rfl rfl rfl).2.1⟩,
   ⟨(toggle_one_click_C7_amended.2.1 modeEnvEnabledOff true rfl rfl rfl rfl rfl rfl rfl
       rfl).1,
    (toggle_one_click_C7_amended.2.1 modeEnvEnabledOff true rfl rfl rfl rfl rfl rfl rfl
       rfl).2⟩⟩

/-- A disabled, unchecked thinking-budget toggle whose click lands. -/
def budgetEnvDisabledOff : BudgetToggleEnv :=
  { visibleOk := true, cancelAfterVisible := false, checkedReadOk := true,
    disabled := true, checked := false, clickOk := true, cancelAfterClick := false }

/-- C7 counterexample: the thinking-budget toggle is a binary control
handled by the toggle reconciler, yet with the control disabled and in the
wrong state the call performs one click — not the claimed zero-click
`false` return — because `_control_thinking_budget_toggle` contains no
`is_disabled` check at all (and returns `None` rather than a Boolean). -/
theorem toggle_one_click_C7_counterexample :
    budgetEnvDisabledOff.disabled = true ∧
    budgetEnvDisabledOff.checked ≠ true ∧
    countClicks (controlThinkingBudgetToggle budgetEnvDisabledOff true).1 = 1 := by
  decide

/-! ## Google-search decision (C10) -/

/-- Entries on which the scan loop cannot raise: everything except a dict
with no google-search-retrieval key and a non-dict `function` value. -/
def entryScanSafe : ToolEntry → Bool
  | .dict false .nonDict => false
  | _ => true

/-- Entries that declare a google-search tool: a
`google_search_retrieval` key with a non-None value, or a function named
`googleSearch`. -/
def entryDeclaresGoogle : ToolEntry → Bool
  | .dict gsr f =>
    gsr || (match f with | .sub n => n == some "googleSearch" | _ => false)
  | .notDict => false

theorem scanTools_ok_false :
    ∀ (l : List ToolEntry), l.all entryScanSafe = true →
      (l.all fun t => !entryDeclaresGoogle t) = true →
      scanTools l = .ok false := by
  intro l
  induction l with
  | nil => intro _ _; rfl
  | cons t rest ih =>
      intro hs hg
      simp only [List.all_cons, Bool.and_eq_true] at hs hg
      obtain ⟨hs1, hs2⟩ := hs
      obtain ⟨hg1, hg2⟩ := hg
      cases t with
      | notDict => simpa [scanTools] using ih hs2 hg2
      | dict gsr f =>
          have hgsr : gsr = false := by
            cases gsr
            · rfl
            · simp [entryDeclaresGoogle] at hg1
          subst hgsr
          cases f with
          | nonDict => simp [entryScanSafe] at hs1
          | absent => simpa [scanTools] using ih hs2 hg2
          | sub name =>
              have hn : ¬ name = some "googleSearch" := by
                simp [entryDeclaresGoogle] at hg1
                simpa using hg1
              simp only [scanTools, Bool.false_eq_true, if_false, if_neg hn]
              exact ih hs2 hg2

/-- C10 (amended): a present, non-null `tools` field that declares no
google-search tool drives the decision to `false` (disabling the toggle,
overriding the global default) — provided no entry is a dict whose
`function` member is a non-dict value, on which the scan raises instead
(see counterexample); the global default is consulted exactly when `tools`
is absent or null, and a present non-list value also decides `false`.
With the decision `false` and the toggle currently on, the toggle step
clicks it off. -/
theorem google_search_decision_C10_amended :
    (∀ (cfgSearch : Bool) (l : List ToolEntry),
       l.all entryScanSafe = true → (l.all fun t => !entryDeclaresGoogle t) = true →
       shouldEnableGoogleSearch cfgSearch (.list l) = .ok false) ∧
    (∀ cfgSearch : Bool,
       shouldEnableGoogleSearch cfgSearch .absent = .ok cfgSearch ∧
       shouldEnableGoogleSearch cfgSearch .null = .ok cfgSearch ∧
       shouldEnableGoogleSearch cfgSearch .notList = .ok false) ∧
    (∀ (env : SearchEnv) (cfgSearch : Bool) (l : List ToolEntry),
       env.visibleOk = true → env.cancelAfterVisible = false →
       env.checkedAttr = .ok (some "true") → env.clickOk = true →
       env.cancelAfterClick = false →
       l.all entryScanSafe = true → (l.all fun t => !entryDeclaresGoogle t) = true →
       (adjustGoogleSearch env cfgSearch (.list l)).1
         = [.surfRead .googleSearch, .click .googleSearch, .surfRead .googleSearch] ∧
       (adjustGoogleSearch env cfgSearch (.list l)).2 = Outcome.ok) := by
  refine ⟨?_, ?_, ?_⟩
  · intro cfg l hs hg
    simpa [shouldEnableGoogleSearch] using scanTools_ok_false l hs hg
  · intro cfg
    exact ⟨rfl, rfl, rfl⟩
  · intro env cfg l hv hcv hattr hclick hcc hs hg
    have hscan := scanTools_ok_false l hs hg
    constructor <;>
      simp [adjustGoogleSearch, shouldEnableGoogleSearch, hscan, hv, hcv, hattr,
        hclick, hcc]

/-- A google-search toggle environment: visible, currently on, click
lands. -/
def searchEnvOn : SearchEnv :=
  { visibleOk := true, cancelAfterVisible := false,
    checkedAttr := .ok (some "true"), clickOk := true, cancelAfterClick := false }

/-- Witness for C10 at concrete inputs: a tools list with one dict entry
declaring nothing (its function member a dict with another name) decides
`false` whatever the default, the absent field falls back to the default,
and with the toggle currently on the step clicks it off. -/
theorem google_search_decision_C10_witness :
    shouldEnableGoogleSearch true
        (.list [ToolEntry.dict false (FuncField.sub (some "otherTool"))]) = .ok false ∧
    shouldEnableGoogleSearch true ToolsField.absent = .ok true ∧
    (adjustGoogleSearch searchEnvOn true
        (.list [ToolEntry.dict false (FuncField.sub (some "otherTool"))])).1
      = [.surfRead .googleSearch, .click .googleSearch, .surfRead .googleSearch] :=
  ⟨google_search_decision_C10_amended.1 true _ (by decide) (by decide),
   (google_search_decision_C10_amended.2.1 true).1,
   (google_search_decision_C10_amended.2.2 searchEnvOn true _ rfl rfl rfl rfl rfl
      (by decide) (by decide)).1⟩

/-- C10 counterexample: a present, non-null `tools` list whose single
entry declares no google-search tool (no `google_search_retrieval` key, no
function named `googleSearch` — its `function` member is a non-dict value
such as `None`) does **not** drive the toggle to disabled: the scan raises
`AttributeError` (`.get` on a non-dict), `_adjust_google_search` never
reaches the toggle, and the error escapes the whole adjustment pass. -/
theorem google_search_decision_C10_counterexample :
    shouldEnableGoogleSearch true (.list [ToolEntry.dict false FuncField.nonDict])
        = .error () ∧
    shouldEnableGoogleSearch true (.list [ToolEntry.dict false FuncField.nonDict])
        ≠ .ok false ∧
    (adjustGoogleSearch searchEnvOn true
        (.list [ToolEntry.dict false FuncField.nonDict])).1 = [] ∧
    (adjustGoogleSearch searchEnvOn true
        (.list [ToolEntry.dict false FuncField.nonDict])).2 = Outcome.pyError := by
  refine ⟨rfl, ?_, rfl, rfl⟩
  simp [shouldEnableGoogleSearch, scanTools]

/-! ## Cancellation and error-containment infrastructure (C5, C6) -/

def isWriteOp : Event → Bool
  | .surfWrite _ => true
  | .click _ => true
  | _ => false

def afterFirstCancel : List Event → List Event
  | [] => []
  | Event.cancelRaise :: rest => rest
  | _ :: rest => afterFirstCancel rest

def hasCancel : List Event → Bool
  | [] => false
  | Event.cancelRaise :: _ => true
  | _ :: rest => hasCancel rest

def noWritesAfterCancel (evs : List Event) : Bool :=
  (afterFirstCancel evs).all fun e => !isWriteOp e

theorem hasCancel_append (l₁ l₂ : List Event) :
    hasCancel (l₁ ++ l₂) = (hasCancel l₁ || hasCancel l₂) := by
  induction l₁ with
  | nil => simp [hasCancel]
  | cons a l ih => cases a <;> simp_all [hasCancel]

theorem afterFirstCancel_append (l₁ l₂ : List Event) :
    afterFirstCancel (l₁ ++ l₂) =
      if hasCancel l₁ then afterFirstCancel l₁ ++ l₂
      else afterFirstCancel l₂ := by
  induction l₁ with
  | nil => simp [afterFirstCancel, hasCancel]
  | cons a l ih =>
      cases a <;> simp_all [afterFirstCancel, hasCancel]

theorem afterFirstCancel_of_not_hasCancel (l : List Event)
    (h : hasCancel l = false) : afterFirstCancel l = [] := by
  induction l with
  | nil => rfl
  | cons a t ih => cases a <;> simp_all [afterFirstCancel, hasCancel]

theorem noWrites_of_not_hasCancel (l : List Event)
    (h : hasCancel l = false) : noWritesAfterCancel l = true := by
  simp [noWritesAfterCancel, afterFirstCancel_of_not_hasCancel l h]

theorem noWrites_append_left (l₁ l₂ : List Event)
    (h : hasCancel l₁ = false)
    (h₂ : noWritesAfterCancel l₂ = true) :
    noWritesAfterCancel (l₁ ++ l₂) = true := by
  unfold noWritesAfterCancel at h₂ ⊢
  rw [afterFirstCancel_append, h]
  simp only [Bool.false_eq_true, if_false]
  exact h₂

theorem noWrites_wrap (body : List Event × Cache × Bool)
    (h : noWritesAfterCancel body.1 = true) :
    noWritesAfterCancel (lockWrap body).events = true := by
  unfold noWritesAfterCancel at h ⊢
  simp only [lockWrap, List.cons_append, afterFirstCancel, List.append_eq]
  rw [afterFirstCancel_append]
  by_cases hc : hasCancel body.1 = true
  · rw [if_pos hc]
    simp_all [List.all_append, isWriteOp]
  · simp only [Bool.not_eq_true] at hc
    rw [hc]
    simp [afterFirstCancel]

theorem hasCancel_wrap (body : List Event × Cache × Bool)
    (h : hasCancel body.1 = false) :
    hasCancel (lockWrap body).events = false := by
  simp only [lockWrap, List.cons_append]
  simp [hasCancel, hasCancel_append, h]

theorem tempInteract_clean (env : TempEnv) (c : ℚ) (cache : Cache) :
    noWritesAfterCancel (tempInteract env c cache).1 = true := by
  unfold tempInteract
  repeat' split
  all_goals rfl

theorem tempInteract_nocancelEv (env : TempEnv) (c : ℚ) (cache : Cache) :
    (tempInteract env c cache).2.2 = false →
    hasCancel (tempInteract env c cache).1 = false := by
  unfold tempInteract
  repeat' split
  all_goals intro h
  all_goals first | rfl | simp at h

theorem tempInteract_cancel_evicts (env : TempEnv) (c : ℚ) (cache : Cache) :
    (tempInteract env c cache).2.2 = true →
    (tempInteract env c cache).2.1.temperature = none := by
  unfold tempInteract
  repeat' split
  all_goals intro h
  all_goals first | rfl | simp at h

theorem tempInteract_nocancel (env : TempEnv) (c : ℚ) (cache : Cache)
    (h1 : env.cancelAfterVisible = false) (h2 : env.cancelAfterRead = false)
    (h3 : env.cancelAfterFill = false) :
    (tempInteract env c cache).2.2 = false := by
  unfold tempInteract
  repeat' split
  all_goals simp_all

theorem tempBody_cases (env : TempEnv) (t : ℚ) (cache : Cache) :
    tempBody env t cache = ([], cache, false) ∨
    tempBody env t cache = tempInteract env (clampTemp t) cache := by
  simp only [tempBody]
  split
  · split_ifs
    · exact Or.inl rfl
    · exact Or.inr rfl
  · exact Or.inr rfl

theorem adjustTemperature_clean (env : TempEnv) (t : ℚ) (cache : Cache) :
    noWritesAfterCancel (adjustTemperature env t cache).events = true := by
  unfold adjustTemperature
  rcases tempBody_cases env t cache with h | h <;> rw [h]
  · exact noWrites_wrap _ rfl
  · exact noWrites_wrap _ (tempInteract_clean env (clampTemp t) cache)

theorem adjustTemperature_nocancelEv (env : TempEnv) (t : ℚ) (cache : Cache) :
    (adjustTemperature env t cache).cancelled = false →
    hasCancel (adjustTemperature env t cache).events = false := by
  unfold adjustTemperature
  rcases tempBody_cases env t cache with h | h <;> rw [h] <;> intro hc
  · exact hasCancel_wrap _ rfl
  · exact hasCancel_wrap _ (tempInteract_nocancelEv env (clampTemp t) cache hc)

theorem adjustTemperature_cancel_evicts (env : TempEnv) (t : ℚ) (cache : Cache) :
    (adjustTemperature env t cache).cancelled = true →
    (adjustTemperature env t cache).cache.temperature = none := by
  unfold adjustTemperature
  rcases tempBody_cases env t cache with h | h <;> rw [h] <;> intro hc
  · simp [lockWrap] at hc
  · exact tempInteract_cancel_evicts env (clampTemp t) cache hc

theorem adjustTemperature_nocancel (env : TempEnv) (t : ℚ) (cache : Cache)
    (h1 : env.cancelAfterVisible = false) (h2 : env.cancelAfterRead = false)
    (h3 : env.cancelAfterFill = false) :
    (adjustTemperature env t cache).cancelled = false := by
  unfold adjustTemperature
  rcases tempBody_cases env t cache with h | h <;> rw [h]
  · rfl
  · exact tempInteract_nocancel env (clampTemp t) cache h1 h2 h3

theorem maxTokensInteract_clean (env : MaxTokensEnv) (c : ℤ) (cache : Cache) :
    noWritesAfterCancel (maxTokensInteract env c cache).1 = true := by
  unfold maxTokensInteract
  repeat' split
  all_goals rfl

theorem maxTokensInteract_nocancelEv (env : MaxTokensEnv) (c : ℤ) (cache : Cache) :
    (maxTokensInteract env c cache).2.2 = false →
    hasCancel (maxTokensInteract env c cache).1 = false := by
  unfold maxTokensInteract
  repeat' split
  all_goals intro h
  all_goals first | rfl | simp at h

theorem maxTokensInteract_cancel_evicts (env : MaxTokensEnv) (c : ℤ) (cache : Cache) :
    (maxTokensInteract env c cache).2.2 = true →
    (maxTokensInteract env c cache).2.1.max_output_tokens = none := by
  unfold maxTokensInteract
  repeat' split
  all_goals intro h
  all_goals first | rfl | simp at h

theorem maxTokensInteract_nocancel (env : MaxTokensEnv) (c : ℤ) (cache : Cache)
    (h1 : env.cancelAfterVisible = false) (h2 : env.cancelAfterFill = false) :
    (maxTokensInteract env c cache).2.2 = false := by
  unfold maxTokensInteract
  repeat' split
  all_goals simp_all

theorem maxTokensBody_cases (env : MaxTokensEnv) (mt : ℤ) (modelId : String)
    (models : List ModelEntry) (cache : Cache) :
    maxTokensBody env mt modelId models cache = ([], cache, false) ∨
    maxTokensBody env mt modelId models cache
      = maxTokensInteract env (clampMaxTokens modelId models mt) cache := by
  simp only [maxTokensBody]
  split
  · split_ifs
    · exact Or.inl rfl
    · exact Or.inr rfl
  · exact Or.inr rfl

theorem adjustMaxTokens_clean (env : MaxTokensEnv) (mt : ℤ) (modelId : String)
    (models : List ModelEntry) (cache : Cache) :
    noWritesAfterCancel (adjustMaxTokens env mt modelId models cache).events = true := by
  unfold adjustMaxTokens
  rcases maxTokensBody_cases env mt modelId models cache with h | h <;> rw [h]
  · exact noWrites_wrap _ rfl
  · exact noWrites_wrap _ (maxTokensInteract_clean env _ cache)

theorem adjustMaxTokens_nocancelEv (env : MaxTokensEnv) (mt : ℤ) (modelId : String)
    (models : List ModelEntry) (cache : Cache) :
    (adjustMaxTokens env mt modelId models cache).cancelled = false →
    hasCancel (adjustMaxTokens env mt modelId models cache).events = false := by
  unfold adjustMaxTokens
  rcases maxTokensBody_cases env mt modelId models cache with h | h <;> rw [h] <;> intro hc
  · exact hasCancel_wrap _ rfl
  · exact hasCancel_wrap _ (maxTokensInteract_nocancelEv env _ cache hc)

theorem adjustMaxTokens_cancel_evicts (env : MaxTokensEnv) (mt : ℤ) (modelId : String)
    (models : List ModelEntry) (cache : Cache) :
    (adjustMaxTokens env mt modelId models cache).cancelled = true →
    (adjustMaxTokens env mt modelId models cache).cache.max_output_tokens = none := by
  unfold adjustMaxTokens
  rcases maxTokensBody_cases env mt modelId models cache with h | h <;> rw [h] <;> intro hc
  · simp [lockWrap] at hc
  · exact maxTokensInteract_cancel_evicts env _ cache hc

theorem adjustMaxTokens_nocancel (env : MaxTokensEnv) (mt : ℤ) (modelId : String)
    (models : List ModelEntry) (cache : Cache)
    (h1 : env.cancelAfterVisible = false) (h2 : env.cancelAfterFill = false) :
    (adjustMaxTokens env mt modelId models cache).cancelled = false := by
  unfold adjustMaxTokens
  rcases maxTokensBody_cases env mt modelId models cache with h | h <;> rw [h]
  · rfl
  · exact maxTokensInteract_nocancel env _ cache h1 h2

theorem chipLoop_afterCancel (cancel fail : ℕ → Bool) :
    ∀ (fuel chips removed : ℕ),
      afterFirstCancel (chipLoop cancel fail fuel chips removed).1 = [] := by
  intro fuel
  induction fuel with
  | zero => intro chips removed; rfl
  | succ n ih =>
      intro chips removed
      cases chips with
      | zero => rfl
      | succ c =>
          simp only [chipLoop]
          split_ifs with h1 h2
          · rfl
          · rfl
          · simpa [afterFirstCancel] using ih c (removed + 1)

theorem chipLoop_clean (cancel fail : ℕ → Bool) (fuel chips removed : ℕ) :
    noWritesAfterCancel (chipLoop cancel fail fuel chips removed).1 = true := by
  simp [noWritesAfterCancel, chipLoop_afterCancel]

theorem chipLoop_nocancelEv (cancel fail : ℕ → Bool) :
    ∀ (fuel chips removed : ℕ),
      (chipLoop cancel fail fuel chips removed).2 = false →
      hasCancel (chipLoop cancel fail fuel chips removed).1 = false := by
  intro fuel
  induction fuel with
  | zero => intro chips removed _; rfl
  | succ n ih =>
      intro chips removed
      cases chips with
      | zero => intro _; rfl
      | succ c =>
          simp only [chipLoop]
          split_ifs with h1 h2
          · intro h; simp at h
          · intro _; rfl
          · intro h
            simpa [hasCancel] using ih c (removed + 1) h

theorem chipLoop_nocancel (fail : ℕ → Bool) :
    ∀ (fuel chips removed : ℕ),
      (chipLoop (fun _ => false) fail fuel chips removed).2 = false := by
  intro fuel
  induction fuel with
  | zero => intro chips removed; rfl
  | succ n ih =>
      intro chips removed
      cases chips with
      | zero => rfl
      | succ c =>
          simp only [chipLoop]
          rw [if_neg (by simp)]
          split_ifs with h
          · rfl
          · exact ih c (removed + 1)

theorem fillLoop_noCancelEv (fail : ℕ → Bool) :
    ∀ (l : List String) (k : ℕ), hasCancel (fillLoop fail l k).1 = false := by
  intro l
  induction l with
  | nil => intro k; rfl
  | cons s rest ih =>
      intro k
      simp only [fillLoop]
      split_ifs with h
      · rfl
      · simpa [hasCancel] using ih (k + 1)

theorem afterFirstCancel_mem (l : List Event) :
    ∀ x ∈ afterFirstCancel l, x ∈ l := by
  induction l with
  | nil => intro x hx; simp [afterFirstCancel] at hx
  | cons a t ih =>
      cases a <;> intro x hx <;>
        simp only [afterFirstCancel] at hx <;>
        first
          | exact List.mem_cons_of_mem _ hx
          | exact List.mem_cons_of_mem _ (ih x hx)

theorem noWrites_append_of_afterNil (l₁ l₂ : List Event)
    (ha : afterFirstCancel l₁ = [])
    (h2 : (l₂.all fun e => !isWriteOp e) = true) :
    noWritesAfterCancel (l₁ ++ l₂) = true := by
  unfold noWritesAfterCancel
  rw [afterFirstCancel_append]
  split_ifs
  · rw [ha]; simpa using h2
  · simp only [List.all_eq_true] at h2 ⊢
    intro x hx
    exact h2 x (afterFirstCancel_mem l₂ x hx)

theorem stopBody_clean (env : StopEnv) (stop : StopInput) (cache : Cache) :
    noWritesAfterCancel (stopBody env stop cache).1 = true := by
  have hchipA := chipLoop_afterCancel env.cancelChip env.chipClickFail
    (env.chips + 5) env.chips 0
  simp only [stopBody]
  split_ifs with h1 h2 h3 h4 h5
  all_goals try dsimp only
  all_goals first
    | rfl
    | exact noWrites_append_of_afterNil _ _ hchipA (by rfl)
    | (have hch : hasCancel (chipLoop env.cancelChip env.chipClickFail
          (env.chips + 5) env.chips 0).1 = false :=
        chipLoop_nocancelEv _ _ _ _ _ (by simpa using h2)
       first
         | exact noWrites_append_left _ _
             (by simp [hasCancel_append, hch, fillLoop_noCancelEv]) (by rfl)
         | exact noWrites_of_not_hasCancel _
             (by simp [hasCancel_append, hch, fillLoop_noCancelEv]))

theorem stopBody_nocancelEv (env : StopEnv) (stop : StopInput) (cache : Cache) :
    (stopBody env stop cache).2.2 = false →
    hasCancel (stopBody env stop cache).1 = false := by
  simp only [stopBody]
  split_ifs with h1 h2 h3 h4 h5 <;> intro hc
  all_goals try dsimp only at hc ⊢
  all_goals first
    | rfl
    | exact absurd hc (by decide)
    | (have hch : hasCancel (chipLoop env.cancelChip env.chipClickFail
          (env.chips + 5) env.chips 0).1 = false :=
        chipLoop_nocancelEv _ _ _ _ _ (by simpa using h2)
       simp [hasCancel_append, hasCancel, hch, fillLoop_noCancelEv])

theorem stopBody_cancel_evicts (env : StopEnv) (stop : StopInput) (cache : Cache) :
    (stopBody env stop cache).2.2 = true →
    (stopBody env stop cache).2.1.stop_sequences = none := by
  simp only [stopBody]
  split_ifs with h1 h2 h3 h4 h5 <;> intro hc
  all_goals dsimp only at hc ⊢

theorem stopBody_nocancel (env : StopEnv) (stop : StopInput) (cache : Cache)
    (h : env.cancelChip = fun _ => false) :
    (stopBody env stop cache).2.2 = false := by
  have hnc := chipLoop_nocancel env.chipClickFail (env.chips + 5) env.chips 0
  rw [← h] at hnc
  simp only [stopBody]
  split_ifs with h1 h2 h3 h4 h5
  all_goals try dsimp only
  all_goals first | rfl | simp [hnc] at h2

theorem adjustStopSequences_clean (env : StopEnv) (stop : StopInput) (cache : Cache) :
    noWritesAfterCancel (adjustStopSequences env stop cache).events = true := by
  unfold adjustStopSequences
  exact noWrites_wrap _ (stopBody_clean env stop cache)

theorem adjustStopSequences_nocancelEv (env : StopEnv) (stop : StopInput)
    (cache : Cache) :
    (adjustStopSequences env stop cache).cancelled = false →
    hasCancel (adjustStopSequences env stop cache).events = false := by
  unfold adjustStopSequences
  intro hc
  exact hasCancel_wrap _ (stopBody_nocancelEv env stop cache hc)

theorem adjustStopSequences_cancel_evicts (env : StopEnv) (stop : StopInput)
    (cache : Cache) :
    (adjustStopSequences env stop cache).cancelled = true →
    (adjustStopSequences env stop cache).cache.stop_sequences = none := by
  unfold adjustStopSequences
  intro hc
  exact stopBody_cancel_evicts env stop cache hc

theorem adjustStopSequences_nocancel (env : StopEnv) (stop : StopInput) (cache : Cache)
    (h : env.cancelChip = fun _ => false) :
    (adjustStopSequences env stop cache).cancelled = false := by
  unfold adjustStopSequences
  exact stopBody_nocancel env stop cache h

theorem adjustTopP_clean (env : TopPEnv) (p : ℚ) :
    noWritesAfterCancel (adjustTopP env p).1 = true := by
  simp only [adjustTopP]
  repeat' split
  all_goals rfl

theorem adjustTopP_nocancelEv (env : TopPEnv) (p : ℚ) :
    (adjustTopP env p).2 = false → hasCancel (adjustTopP env p).1 = false := by
  simp only [adjustTopP]
  repeat' split
  all_goals intro h
  all_goals first | rfl | simp at h

theorem adjustTopP_nocancel (env : TopPEnv) (p : ℚ)
    (h1 : env.cancelAfterVisible = false) (h2 : env.cancelAfterFill = false) :
    (adjustTopP env p).2 = false := by
  simp only [adjustTopP]
  repeat' split
  all_goals simp_all

theorem adjustTopP_no_lock (env : TopPEnv) (p : ℚ) :
    ((adjustTopP env p).1.all fun e => !isLockEvent e) = true := by
  simp only [adjustTopP]
  repeat' split
  all_goals rfl

theorem panel_clean (env : PanelEnv) :
    noWritesAfterCancel (ensureToolsPanelExpanded env).1 = true := by
  unfold ensureToolsPanelExpanded
  repeat' split
  all_goals rfl

theorem panel_nocancelEv (env : PanelEnv) :
    (ensureToolsPanelExpanded env).2 = false →
    hasCancel (ensureToolsPanelExpanded env).1 = false := by
  unfold ensureToolsPanelExpanded
  repeat' split
  all_goals intro h
  all_goals first | rfl | simp at h

theorem panel_nocancel (env : PanelEnv) (h1 : env.cancelAfterClick = false) :
    (ensureToolsPanelExpanded env).2 = false := by
  unfold ensureToolsPanelExpanded
  repeat' split
  all_goals simp_all

theorem panel_no_lock (env : PanelEnv) :
    ((ensureToolsPanelExpanded env).1.all fun e => !isLockEvent e) = true := by
  unfold ensureToolsPanelExpanded
  repeat' split
  all_goals rfl

theorem url_clean (env : UrlEnv) :
    noWritesAfterCancel (openUrlContext env).1 = true := by
  unfold openUrlContext
  repeat' split
  all_goals rfl

theorem url_nocancelEv (env : UrlEnv) :
    (openUrlContext env).2 = false →
    hasCancel (openUrlContext env).1 = false := by
  unfold openUrlContext
  repeat' split
  all_goals intro h
  all_goals first | rfl | simp at h

theorem url_nocancel (env : UrlEnv) (h1 : env.cancelAfterClick = false) :
    (openUrlContext env).2 = false := by
  unfold openUrlContext
  repeat' split
  all_goals simp_all

theorem url_no_lock (env : UrlEnv) :
    ((openUrlContext env).1.all fun e => !isLockEvent e) = true := by
  unfold openUrlContext
  repeat' split
  all_goals rfl

theorem modeToggle_clean (env : ModeToggleEnv) (d : Bool) :
    noWritesAfterCancel (controlThinkingModeToggle env d).events = true := by
  unfold controlThinkingModeToggle
  repeat' split
  all_goals rfl

theorem modeToggle_nocancelEv (env : ModeToggleEnv) (d : Bool) :
    (controlThinkingModeToggle env d).cancelled = false →
    hasCancel (controlThinkingModeToggle env d).events = false := by
  unfold controlThinkingModeToggle
  repeat' split
  all_goals intro h
  all_goals first | rfl | simp at h

theorem modeToggle_nocancel (env : ModeToggleEnv) (d : Bool)
    (h1 : env.cancelAfterVisible = false) (h2 : env.cancelAfterClick = false) :
    (controlThinkingModeToggle env d).cancelled = false := by
  unfold controlThinkingModeToggle
  repeat' split
  all_goals simp_all

theorem modeToggle_no_lock (env : ModeToggleEnv) (d : Bool) :
    ((controlThinkingModeToggle env d).events.all fun e => !isLockEvent e) = true := by
  unfold controlThinkingModeToggle
  repeat' split
  all_goals rfl

theorem budgetToggle_clean (env : BudgetToggleEnv) (d : Bool) :
    noWritesAfterCancel (controlThinkingBudgetToggle env d).1 = true := by
  unfold controlThinkingBudgetToggle
  repeat' split
  all_goals rfl

theorem budgetToggle_nocancelEv (env : BudgetToggleEnv) (d : Bool) :
    (controlThinkingBudgetToggle env d).2 = false →
    hasCancel (controlThinkingBudgetToggle env d).1 = false := by
  unfold controlThinkingBudgetToggle
  repeat' split
  all_goals intro h
  all_goals first | rfl | simp at h

theorem budgetToggle_nocancel (env : BudgetToggleEnv) (d : Bool)
    (h1 : env.cancelAfterVisible = false) (h2 : env.cancelAfterClick = false) :
    (controlThinkingBudgetToggle env d).2 = false := by
  unfold controlThinkingBudgetToggle
  repeat' split
  all_goals simp_all

theorem budgetToggle_no_lock (env : BudgetToggleEnv) (d : Bool) :
    ((controlThinkingBudgetToggle env d).1.all fun e => !isLockEvent e) = true := by
  unfold controlThinkingBudgetToggle
  repeat' split
  all_goals rfl

theorem setBudget_clean (env : SetBudgetEnv) (b : Option ℤ) :
    noWritesAfterCancel (setThinkingBudgetValue env b).1 = true := by
  unfold setThinkingBudgetValue
  repeat' split
  all_goals rfl

theorem setBudget_nocancelEv (env : SetBudgetEnv) (b : Option ℤ) :
    (setThinkingBudgetValue env b).2 = false →
    hasCancel (setThinkingBudgetValue env b).1 = false := by
  unfold setThinkingBudgetValue
  repeat' split
  all_goals intro h
  all_goals first | rfl | simp at h

theorem setBudget_nocancel (env : SetBudgetEnv) (b : Option ℤ)
    (h1 : env.cancelAfterVisible = false) (h2 : env.cancelAfterFill = false) :
    (setThinkingBudgetValue env b).2 = false := by
  unfold setThinkingBudgetValue
  repeat' split
  all_goals simp_all

theorem setBudget_no_lock (env : SetBudgetEnv) (b : Option ℤ) :
    ((setThinkingBudgetValue env b).1.all fun e => !isLockEvent e) = true := by
  unfold setThinkingBudgetValue
  repeat' split
  all_goals rfl

theorem googleStep_clean (env : SearchEnv) (cfg : Bool) (tools : ToolsField) :
    noWritesAfterCancel (adjustGoogleSearch env cfg tools).1 = true := by
  simp only [adjustGoogleSearch]
  repeat' split
  all_goals rfl

theorem googleStep_nocancelEv (env : SearchEnv) (cfg : Bool) (tools : ToolsField) :
    (adjustGoogleSearch env cfg tools).2 ≠ Outcome.cancelled →
    hasCancel (adjustGoogleSearch env cfg tools).1 = false := by
  simp only [adjustGoogleSearch]
  repeat' split
  all_goals intro h
  all_goals first | rfl | simp at h

theorem googleStep_nocancel (env : SearchEnv) (cfg : Bool) (tools : ToolsField)
    (h1 : env.cancelAfterVisible = false) (h2 : env.cancelAfterClick = false) :
    (adjustGoogleSearch env cfg tools).2 ≠ Outcome.cancelled := by
  simp only [adjustGoogleSearch]
  repeat' split
  all_goals simp_all

theorem googleStep_no_lock (env : SearchEnv) (cfg : Bool) (tools : ToolsField) :
    ((adjustGoogleSearch env cfg tools).1.all fun e => !isLockEvent e) = true := by
  simp only [adjustGoogleSearch]
  repeat' split
  all_goals rfl

theorem hasCancel_append₂ (l₁ l₂ : List Event)
    (h1 : hasCancel l₁ = false) (h2 : hasCancel l₂ = false) :
    hasCancel (l₁ ++ l₂) = false := by
  simp [hasCancel_append, h1, h2]

theorem handleThinking_clean (env : ThinkingEnv) (cfgE : Bool) (cfgB : ℤ)
    (rf : Option ReasoningField) :
    noWritesAfterCancel (handleThinkingBudget env cfgE cfgB rf).1 = true := by
  simp only [handleThinkingBudget]
  split_ifs
  all_goals try dsimp only
  all_goals first
    | exact modeToggle_clean _ _
    | exact noWrites_append_left _ _ (modeToggle_nocancelEv _ _ (by simp_all))
        (budgetToggle_clean _ _)
    | exact noWrites_append_left _ _
        (hasCancel_append₂ _ _ (modeToggle_nocancelEv _ _ (by simp_all))
          (budgetToggle_nocancelEv _ _ (by simp_all)))
        (setBudget_clean _ _)

theorem handleThinking_nocancelEv (env : ThinkingEnv) (cfgE : Bool) (cfgB : ℤ)
    (rf : Option ReasoningField) :
    (handleThinkingBudget env cfgE cfgB rf).2 = false →
    hasCancel (handleThinkingBudget env cfgE cfgB rf).1 = false := by
  simp only [handleThinkingBudget]
  split_ifs <;> intro hc
  all_goals try dsimp only at hc ⊢
  all_goals first
    | exact absurd hc (by decide)
    | exact modeToggle_nocancelEv _ _ (by simp_all)
    | exact hasCancel_append₂ _ _ (modeToggle_nocancelEv _ _ (by simp_all))
        (budgetToggle_nocancelEv _ _ hc)
    | exact hasCancel_append₂ _ _
        (hasCancel_append₂ _ _ (modeToggle_nocancelEv _ _ (by simp_all))
          (budgetToggle_nocancelEv _ _ (by simp_all)))
        (setBudget_nocancelEv _ _ hc)

theorem handleThinking_nocancel (env : ThinkingEnv) (cfgE : Bool) (cfgB : ℤ)
    (rf : Option ReasoningField)
    (hm1 : env.mode.cancelAfterVisible = false)
    (hm2 : env.mode.cancelAfterClick = false)
    (hb1 : env.budget.cancelAfterVisible = false)
    (hb2 : env.budget.cancelAfterClick = false)
    (hs1 : env.setb.cancelAfterVisible = false)
    (hs2 : env.setb.cancelAfterFill = false) :
    (handleThinkingBudget env cfgE cfgB rf).2 = false := by
  have hr0 : ∀ d, (controlThinkingModeToggle env.mode d).cancelled = false :=
    fun d => modeToggle_nocancel _ d hm1 hm2
  have hb0 : ∀ d, (controlThinkingBudgetToggle env.budget d).2 = false :=
    fun d => budgetToggle_nocancel _ d hb1 hb2
  have hs0 : ∀ b, (setThinkingBudgetValue env.setb b).2 = false :=
    fun b => setBudget_nocancel _ b hs1 hs2
  simp only [handleThinkingBudget]
  split_ifs <;> simp_all

theorem handleThinking_no_lock (env : ThinkingEnv) (cfgE : Bool) (cfgB : ℤ)
    (rf : Option ReasoningField) :
    ((handleThinkingBudget env cfgE cfgB rf).1.all fun e => !isLockEvent e) = true := by
  simp only [handleThinkingBudget]
  split_ifs <;>
    simp [List.all_append, modeToggle_no_lock, budgetToggle_no_lock, setBudget_no_lock]


theorem runSteps_clean (steps : List StepFn)
    (h : ∀ s ∈ steps, ∀ c, noWritesAfterCancel (s c).1 = true ∧
         ((s c).2.2 = Outcome.ok → hasCancel (s c).1 = false)) :
    ∀ cache, noWritesAfterCancel (runSteps steps cache).events = true := by
  induction steps with
  | nil => intro cache; rfl
  | cons s rest ih =>
      intro cache
      simp only [runSteps]
      rcases ho : (s cache).2.2 with _ | _ | _ <;> simp only [ho] <;> try dsimp only
      · refine noWrites_append_left _ _ ((h s (List.mem_cons_self _ _) cache).2 ho) ?_
        exact ih (fun s' hs' => h s' (List.mem_cons_of_mem _ hs')) _
      · exact (h s (List.mem_cons_self _ _) cache).1
      · exact (h s (List.mem_cons_self _ _) cache).1

theorem runSteps_not_cancelled (steps : List StepFn)
    (h : ∀ s ∈ steps, ∀ c, (s c).2.2 ≠ Outcome.cancelled) :
    ∀ cache, (runSteps steps cache).outcome ≠ Outcome.cancelled := by
  induction steps with
  | nil => intro cache hc; simp [runSteps] at hc
  | cons s rest ih =>
      intro cache
      simp only [runSteps]
      rcases ho : (s cache).2.2 with _ | _ | _ <;> simp only [ho] <;> try dsimp only
      · exact ih (fun s' hs' => h s' (List.mem_cons_of_mem _ hs')) _
      · exact absurd ho (h s (List.mem_cons_self _ _) cache)
      · simp

theorem runSteps_cons_ok (s : StepFn) (rest : List StepFn) (cache : Cache)
    (h : (s cache).2.2 = Outcome.ok) :
    runSteps (s :: rest) cache
      = ⟨(s cache).1 ++ (runSteps rest (s cache).2.1).events,
         (runSteps rest (s cache).2.1).cache,
         (runSteps rest (s cache).2.1).outcome⟩ := by
  simp only [runSteps, h]

def countLockAcq (evs : List Event) : ℕ :=
  (evs.filter fun e => e == Event.lockAcq).length

theorem countLockAcq_append (l₁ l₂ : List Event) :
    countLockAcq (l₁ ++ l₂) = countLockAcq l₁ + countLockAcq l₂ := by
  simp [countLockAcq, List.filter_append]

theorem countLockAcq_of_no_lock (l : List Event)
    (h : (l.all fun e => !isLockEvent e) = true) : countLockAcq l = 0 := by
  induction l with
  | nil => rfl
  | cons a t ih =>
      simp only [List.all_cons, Bool.and_eq_true] at h
      cases a <;> simp_all [countLockAcq, List.filter_cons, isLockEvent]

theorem countLockAcq_wrap (body : List Event × Cache × Bool)
    (h : (body.1.all fun e => !isLockEvent e) = true) :
    countLockAcq (lockWrap body).events = 1 := by
  have h0 := countLockAcq_of_no_lock _ h
  have hcons : countLockAcq (Event.lockAcq :: body.1) = countLockAcq body.1 + 1 := by
    simp [countLockAcq, List.filter_cons]
  simp only [lockWrap]
  rw [countLockAcq_append, hcons, h0]
  simp [countLockAcq]

theorem checkpointStep_bundle (flag : Bool) (c : Cache) :
    noWritesAfterCancel ((checkpointStep flag) c).1 = true ∧
    (((checkpointStep flag) c).2.2 = Outcome.ok →
      hasCancel ((checkpointStep flag) c).1 = false) := by
  cases flag <;> simp [checkpointStep, noWritesAfterCancel, afterFirstCancel, hasCancel]

theorem liftStep_bundle (f : Cache → StepResult)
    (hclean : ∀ c, noWritesAfterCancel (f c).events = true)
    (hnc : ∀ c, (f c).cancelled = false → hasCancel (f c).events = false) (c : Cache) :
    noWritesAfterCancel ((liftStep f) c).1 = true ∧
    (((liftStep f) c).2.2 = Outcome.ok → hasCancel ((liftStep f) c).1 = false) := by
  refine ⟨hclean c, fun ho => hnc c ?_⟩
  by_cases hb : (f c).cancelled = true
  · simp [liftStep, hb] at ho
  · simpa using hb

theorem liftNoCache_bundle (r : List Event × Bool)
    (hclean : noWritesAfterCancel r.1 = true)
    (hnc : r.2 = false → hasCancel r.1 = false) (c : Cache) :
    noWritesAfterCancel ((liftNoCache r) c).1 = true ∧
    (((liftNoCache r) c).2.2 = Outcome.ok → hasCancel ((liftNoCache r) c).1 = false) := by
  refine ⟨hclean, fun ho => hnc ?_⟩
  by_cases hb : r.2 = true
  · simp [liftNoCache, hb] at ho
  · simpa using hb

theorem orch_clean (env : OrchEnv) (req : RequestParams) (cfg : Config)
    (modelId : String) (models : List ModelEntry) (cache : Cache) :
    noWritesAfterCancel (adjustParameters env req cfg modelId models cache).events
      = true := by
  apply runSteps_clean
  intro s hs c
  fin_cases hs
  · exact checkpointStep_bundle _ _
  · exact liftStep_bundle _ (fun c => adjustTemperature_clean _ _ c)
      (fun c => adjustTemperature_nocancelEv _ _ c) c
  · exact checkpointStep_bundle _ _
  · exact liftStep_bundle _ (fun c => adjustMaxTokens_clean _ _ _ _ c)
      (fun c => adjustMaxTokens_nocancelEv _ _ _ _ c) c
  · exact checkpointStep_bundle _ _
  · exact liftStep_bundle _ (fun c => adjustStopSequences_clean _ _ c)
      (fun c => adjustStopSequences_nocancelEv _ _ c) c
  · exact checkpointStep_bundle _ _
  · exact liftNoCache_bundle _ (adjustTopP_clean _ _) (adjustTopP_nocancelEv _ _) c
  · exact checkpointStep_bundle _ _
  · exact liftNoCache_bundle _ (panel_clean _) (panel_nocancelEv _) c
  · refine liftNoCache_bundle _ ?_ ?_ c
    · split_ifs
      · exact url_clean _
      · rfl
    · split_ifs
      · exact url_nocancelEv _
      · intro _; rfl
  · exact liftNoCache_bundle _ (handleThinking_clean _ _ _ _)
      (handleThinking_nocancelEv _ _ _ _) c
  · refine ⟨googleStep_clean _ _ _, fun ho => googleStep_nocancelEv _ _ _ ?_⟩
    intro hcan
    rw [hcan] at ho
    exact Outcome.noConfusion ho

def noCancelOrch (env : OrchEnv) : Prop :=
  env.cancelStart = false ∧ env.cancelAfterTemp = false ∧ env.cancelAfterMax = false ∧
  env.cancelAfterStop = false ∧ env.cancelEnd = false ∧
  env.temp.cancelAfterVisible = false ∧ env.temp.cancelAfterRead = false ∧
  env.temp.cancelAfterFill = false ∧
  env.maxT.cancelAfterVisible = false ∧ env.maxT.cancelAfterFill = false ∧
  env.stop.cancelChip = (fun _ => false) ∧
  env.topP.cancelAfterVisible = false ∧ env.topP.cancelAfterFill = false ∧
  env.panel.cancelAfterClick = false ∧
  env.url.cancelAfterClick = false ∧
  env.thinking.mode.cancelAfterVisible = false ∧
  env.thinking.mode.cancelAfterClick = false ∧
  env.thinking.budget.cancelAfterVisible = false ∧
  env.thinking.budget.cancelAfterClick = false ∧
  env.thinking.setb.cancelAfterVisible = false ∧
  env.thinking.setb.cancelAfterFill = false ∧
  env.search.cancelAfterVisible = false ∧ env.search.cancelAfterClick = false

theorem adjustTemperature_countLock (env : TempEnv) (t : ℚ) (cache : Cache) :
    countLockAcq (adjustTemperature env t cache).events = 1 :=
  countLockAcq_wrap _ (tempBody_no_lock env t cache)

theorem adjustMaxTokens_countLock (env : MaxTokensEnv) (mt : ℤ) (modelId : String)
    (models : List ModelEntry) (cache : Cache) :
    countLockAcq (adjustMaxTokens env mt modelId models cache).events = 1 :=
  countLockAcq_wrap _ (maxTokensBody_no_lock env mt modelId models cache)

theorem adjustStopSequences_countLock (env : StopEnv) (stop : StopInput) (cache : Cache) :
    countLockAcq (adjustStopSequences env stop cache).events = 1 :=
  countLockAcq_wrap _ (stopBody_no_lock env stop cache)

set_option maxHeartbeats 1000000 in
theorem orch_runs_all (env : OrchEnv) (req : RequestParams) (cfg : Config)
    (modelId : String) (models : List ModelEntry) (cache : Cache)
    (h : noCancelOrch env) :
    countLockAcq (adjustParameters env req cfg modelId models cache).events = 3 ∧
    (adjustParameters env req cfg modelId models cache).outcome ≠ Outcome.cancelled := by
  obtain ⟨hc0, hcT, hcM, hcS, hcE, ht1, ht2, ht3, hm1, hm2, hst, hp1, hp2, hpa, hur,
    hmv, hmc, hbv, hbc, hsv, hsf, hgv, hgc⟩ := h
  have ho0 : ∀ (c : Cache), ((checkpointStep env.cancelStart) c).2.2 = Outcome.ok := by
    intro c; simp [checkpointStep, hc0]
  have hoT : ∀ (c : Cache), ((checkpointStep env.cancelAfterTemp) c).2.2 = Outcome.ok := by
    intro c; simp [checkpointStep, hcT]
  have hoM : ∀ (c : Cache), ((checkpointStep env.cancelAfterMax) c).2.2 = Outcome.ok := by
    intro c; simp [checkpointStep, hcM]
  have hoS : ∀ (c : Cache), ((checkpointStep env.cancelAfterStop) c).2.2 = Outcome.ok := by
    intro c; simp [checkpointStep, hcS]
  have hoE : ∀ (c : Cache), ((checkpointStep env.cancelEnd) c).2.2 = Outcome.ok := by
    intro c; simp [checkpointStep, hcE]
  have ho1 : ∀ (t : ℚ) (c : Cache),
      ((liftStep (adjustTemperature env.temp t)) c).2.2 = Outcome.ok := by
    intro t c; simp [liftStep, adjustTemperature_nocancel env.temp t c ht1 ht2 ht3]
  have ho2 : ∀ (mt : ℤ) (c : Cache),
      ((liftStep (fun cache => adjustMaxTokens env.maxT mt modelId models cache)) c).2.2
        = Outcome.ok := by
    intro mt c; simp [liftStep, adjustMaxTokens_nocancel env.maxT mt modelId models c hm1 hm2]
  have ho3 : ∀ (st : StopInput) (c : Cache),
      ((liftStep (adjustStopSequences env.stop st)) c).2.2 = Outcome.ok := by
    intro st c; simp [liftStep, adjustStopSequences_nocancel env.stop st c hst]
  have ho4 : ∀ (p : ℚ) (c : Cache),
      ((liftNoCache (adjustTopP env.topP p)) c).2.2 = Outcome.ok := by
    intro p c; simp [liftNoCache, adjustTopP_nocancel env.topP p hp1 hp2]
  have ho5 : ∀ (c : Cache),
      ((liftNoCache (ensureToolsPanelExpanded env.panel)) c).2.2 = Outcome.ok := by
    intro c; simp [liftNoCache, panel_nocancel env.panel hpa]
  have ho6 : ∀ (c : Cache),
      ((liftNoCache (if cfg.enableUrlContext then openUrlContext env.url
          else ([], false))) c).2.2 = Outcome.ok := by
    intro c
    by_cases hu : cfg.enableUrlContext <;>
      simp [liftNoCache, hu, url_nocancel env.url hur]
  have ho7 : ∀ (c : Cache),
      ((liftNoCache (handleThinkingBudget env.thinking cfg.enableThinkingBudget
          cfg.defaultThinkingBudget req.reasoning_effort)) c).2.2 = Outcome.ok := by
    intro c
    simp [liftNoCache,
      handleThinking_nocancel env.thinking cfg.enableThinkingBudget
        cfg.defaultThinkingBudget req.reasoning_effort hmv hmc hbv hbc hsv hsf]
  have hgoogle : ∀ (c : Cache),
      ((fun (cache : Cache) =>
        let r := adjustGoogleSearch env.search cfg.enableGoogleSearch req.tools
        (r.1, cache, r.2)) c).2.2 ≠ Outcome.cancelled := by
    intro c
    exact googleStep_nocancel env.search cfg.enableGoogleSearch req.tools hgv hgc
  unfold adjustParameters orchSteps
  rw [runSteps_cons_ok _ _ _ (ho0 _), runSteps_cons_ok _ _ _ (ho1 _ _),
      runSteps_cons_ok _ _ _ (hoT _), runSteps_cons_ok _ _ _ (ho2 _ _),
      runSteps_cons_ok _ _ _ (hoM _), runSteps_cons_ok _ _ _ (ho3 _ _),
      runSteps_cons_ok _ _ _ (hoS _), runSteps_cons_ok _ _ _ (ho4 _ _),
      runSteps_cons_ok _ _ _ (hoE _), runSteps_cons_ok _ _ _ (ho5 _),
      runSteps_cons_ok _ _ _ (ho6 _), runSteps_cons_ok _ _ _ (ho7 _)]
  have hurl0 : countLockAcq
      (if cfg.enableUrlContext then openUrlContext env.url else ([], false)).1 = 0 := by
    by_cases hu : cfg.enableUrlContext
    · rw [if_pos hu]; exact countLockAcq_of_no_lock _ (url_no_lock env.url)
    · rw [if_neg hu]; rfl
  constructor
  · simp only [countLockAcq_append]
    rcases hout : (adjustGoogleSearch env.search cfg.enableGoogleSearch req.tools).2
      with _ | _ | _ <;>
      simp only [runSteps, hout, checkpointStep, hc0, hcT, hcM, hcS, hcE, liftStep,
        liftNoCache, Bool.false_eq_true, if_false, countLockAcq_append, hurl0,
        adjustTemperature_countLock, adjustMaxTokens_countLock,
        adjustStopSequences_countLock,
        countLockAcq_of_no_lock _ (adjustTopP_no_lock env.topP _),
        countLockAcq_of_no_lock _ (panel_no_lock env.panel),
        countLockAcq_of_no_lock _ (handleThinking_no_lock env.thinking _ _ _),
        countLockAcq_of_no_lock _ (googleStep_no_lock env.search _ _)] <;>
      rfl
  · apply runSteps_not_cancelled
    intro s hs c
    fin_cases hs
    exact hgoogle c

theorem orch_propagates_cancel (env : OrchEnv) (req : RequestParams) (cfg : Config)
    (modelId : String) (models : List ModelEntry) (cache : Cache)
    (h0 : env.cancelStart = false)
    (hc : (adjustTemperature env.temp
        (req.temperature.getD cfg.defaultTemperature) cache).cancelled = true) :
    (adjustParameters env req cfg modelId models cache).outcome
      = Outcome.cancelled := by
  unfold adjustParameters orchSteps
  rw [runSteps_cons_ok _ _ _ (by simp [checkpointStep, h0])]
  simp only [checkpointStep, h0, Bool.false_eq_true, if_false]
  simp [runSteps, liftStep, hc]

/-! ## C5: cancellation semantics -/

/-- C5 (amended): a positive disconnect poll raises the cancellation
signal and it propagates through every reconciliation layer: no surface
write or click is ever attempted after the raise (in the whole
orchestrator trace), a step interrupted by cancellation never commits to
the cache — its cache entry is instead evicted (left unknown) by the
`except` handler before the signal is re-raised — and a step-level
cancellation makes the whole adjustment pass return the cancellation
outcome. -/
theorem cancellation_C5_amended :
    (∀ (env : OrchEnv) (req : RequestParams) (cfg : Config) (modelId : String)
       (models : List ModelEntry) (cache : Cache),
       noWritesAfterCancel
         (adjustParameters env req cfg modelId models cache).events = true) ∧
    (∀ (env : TempEnv) (t : ℚ) (cache : Cache),
       (adjustTemperature env t cache).cancelled = true →
       (adjustTemperature env t cache).cache.temperature = none) ∧
    (∀ (env : MaxTokensEnv) (mt : ℤ) (modelId : String)
       (models : List ModelEntry) (cache : Cache),
       (adjustMaxTokens env mt modelId models cache).cancelled = true →
       (adjustMaxTokens env mt modelId models cache).cache.max_output_tokens = none) ∧
    (∀ (env : StopEnv) (stop : StopInput) (cache : Cache),
       (adjustStopSequences env stop cache).cancelled = true →
       (adjustStopSequences env stop cache).cache.stop_sequences = none) ∧
    (∀ (env : OrchEnv) (req : RequestParams) (cfg : Config) (modelId : String)
       (models : List ModelEntry) (cache : Cache),
       env.cancelStart = false →
       (adjustTemperature env.temp
         (req.temperature.getD cfg.defaultTemperature) cache).cancelled = true →
       (adjustParameters env req cfg modelId models cache).outcome
         = Outcome.cancelled) :=
  ⟨orch_clean, adjustTemperature_cancel_evicts, adjustMaxTokens_cancel_evicts,
   adjustStopSequences_cancel_evicts, orch_propagates_cancel⟩

/-- A max-tokens run whose post-fill disconnect poll fires. -/
def mtEnvC5 : MaxTokensEnv :=
  { visibleOk := true, cancelAfterVisible := false, read1 := .ok (some 400),
    fillOk := true, cancelAfterFill := true, read2 := .ok (some 500) }

/-- A cache whose max-tokens entry (400) differs from the desired 500. -/
def cacheC5 : Cache :=
  { temperature := none, max_output_tokens := some 400, stop_sequences := none }

/-- Witness for C5: at the concrete interrupted run the cache entry for
the interrupted parameter ends up evicted. -/
theorem cancellation_C5_witness :
    (adjustMaxTokens mtEnvC5 500 "" [] cacheC5).cache.max_output_tokens = none :=
  cancellation_C5_amended.2.2.1 mtEnvC5 500 "" [] cacheC5 (by decide)

/-- C5 counterexample: when the post-fill checkpoint raises, the `except
Exception` handler pops the parameter's cache entry before re-raising, so
a cache mutation (an eviction) does occur for the interrupted step —
contradicting the claim's "no cache mutation occurs for the step that was
interrupted". -/
theorem cancellation_C5_counterexample :
    (adjustMaxTokens mtEnvC5 500 "" [] cacheC5).cancelled = true ∧
    (adjustMaxTokens mtEnvC5 500 "" [] cacheC5).cache ≠ cacheC5 := by
  decide

/-! ## C6: recoverable failures are contained -/

theorem tempVerifyFail_contained (env : TempEnv) (t : ℚ) (cache : Cache) (u v : ℚ)
    (h1 : env.cancelAfterVisible = false) (h2 : env.cancelAfterRead = false)
    (h3 : env.cancelAfterFill = false) (h4 : env.visibleOk = true)
    (h5 : env.read1 = ReadRes.ok (some u)) (h6 : tempClose u (clampTemp t) = false)
    (h7 : env.fillOk = true) (h8 : env.read2 = ReadRes.ok (some v))
    (h9 : tempClose v (clampTemp t) = false) (h10 : cache.temperature = none) :
    (adjustTemperature env t cache).cancelled = false ∧
    (adjustTemperature env t cache).cache.temperature = none ∧
    Event.snapshot "temperature_verify_fail" ∈ (adjustTemperature env t cache).events := by
  refine ⟨?_, ?_, ?_⟩ <;>
    simp [adjustTemperature, lockWrap, tempBody, tempInteract,
      h1, h2, h3, h4, h5, h6, h7, h8, h9, h10]

theorem tempReadError_contained (env : TempEnv) (t : ℚ) (cache : Cache) (pe : PwErr)
    (h1 : env.cancelAfterVisible = false) (h4 : env.visibleOk = true)
    (h5 : env.read1 = ReadRes.err pe) (h10 : cache.temperature = none) :
    (adjustTemperature env t cache).cancelled = false ∧
    (adjustTemperature env t cache).cache.temperature = none ∧
    Event.snapshot "temperature_playwright_error"
      ∈ (adjustTemperature env t cache).events := by
  refine ⟨?_, ?_, ?_⟩ <;>
    simp [adjustTemperature, lockWrap, tempBody, tempInteract, h1, h4, h5, h10]

theorem maxVerifyFail_contained (env : MaxTokensEnv) (mt : ℤ) (modelId : String)
    (models : List ModelEntry) (cache : Cache) (u v : ℤ)
    (h1 : env.cancelAfterVisible = false) (h3 : env.cancelAfterFill = false)
    (h4 : env.visibleOk = true) (h5 : env.read1 = ReadRes.ok (some u))
    (h6 : ¬ u = clampMaxTokens modelId models mt) (h7 : env.fillOk = true)
    (h8 : env.read2 = ReadRes.ok (some v))
    (h9 : ¬ v = clampMaxTokens modelId models mt)
    (h10 : cache.max_output_tokens = none) :
    (adjustMaxTokens env mt modelId models cache).cancelled = false ∧
    (adjustMaxTokens env mt modelId models cache).cache.max_output_tokens = none ∧
    Event.snapshot "max_tokens_verify_fail"
      ∈ (adjustMaxTokens env mt modelId models cache).events := by
  refine ⟨?_, ?_, ?_⟩ <;>
    simp [adjustMaxTokens, lockWrap, maxTokensBody, maxTokensInteract,
      h1, h3, h4, h5, h6, h7, h8, h9, h10]

theorem stopVisibleFail_contained (env : StopEnv) (stop : StopInput) (cache : Cache)
    (h1 : env.cancelChip = fun _ => false) (h2 : env.visibleOk = false)
    (h3 : ¬ normStops stop = ∅)
    (h4 : ¬ cache.stop_sequences = some (normStops stop)) :
    (adjustStopSequences env stop cache).cancelled = false ∧
    (adjustStopSequences env stop cache).cache.stop_sequences = none ∧
    Event.snapshot "stop_sequence_error"
      ∈ (adjustStopSequences env stop cache).events := by
  have hnc := chipLoop_nocancel env.chipClickFail (env.chips + 5) env.chips 0
  rw [← h1] at hnc
  refine ⟨?_, ?_, ?_⟩ <;>
    simp [adjustStopSequences, lockWrap, stopBody, h2, h3, h4, hnc]

theorem topPVerifyFail_contained (env : TopPEnv) (p : ℚ) (u v : ℚ)
    (h1 : env.cancelAfterVisible = false) (h3 : env.cancelAfterFill = false)
    (h4 : env.visibleOk = true) (h5 : env.read1 = ReadRes.ok (some u))
    (h6 : topPDiffer u (clampTopP p) = true) (h7 : env.fillOk = true)
    (h8 : env.read2 = ReadRes.ok (some v)) (h9 : topPDiffer v (clampTopP p) = true) :
    (adjustTopP env p).2 = false ∧
    Event.snapshot "top_p_verify_fail" ∈ (adjustTopP env p).1 := by
  constructor <;>
    simp [adjustTopP, h1, h3, h4, h5, h6, h7, h8, h9]

/-- C6 (amended): absent cancellation, no value-adjustment step ever
raises to the caller; a verification failure or a recoverable exception
leaves the parameter's cache entry evicted and records a diagnostic
snapshot (top-p, which keeps no cache entry, records the snapshot only);
the orchestrator then still executes every step — all three lock-guarded
steps appear in the trace and the pass does not end cancelled.  The one
exception to "only cancellation and total submission failure cross
component boundaries" is the google-search tool scan, which can raise a
type error on a malformed tools entry (see the C10 results); that error
is not a cancellation yet escapes the pass. -/
theorem error_containment_C6_amended :
    (∀ (env : TempEnv) (t : ℚ) (cache : Cache),
       env.cancelAfterVisible = false → env.cancelAfterRead = false →
       env.cancelAfterFill = false →
       (adjustTemperature env t cache).cancelled = false) ∧
    (∀ (env : MaxTokensEnv) (mt : ℤ) (modelId : String)
       (models : List ModelEntry) (cache : Cache),
       env.cancelAfterVisible = false → env.cancelAfterFill = false →
       (adjustMaxTokens env mt modelId models cache).cancelled = false) ∧
    (∀ (env : StopEnv) (stop : StopInput) (cache : Cache),
       env.cancelChip = (fun _ => false) →
       (adjustStopSequences env stop cache).cancelled = false) ∧
    (∀ (env : TopPEnv) (p : ℚ),
       env.cancelAfterVisible = false → env.cancelAfterFill = false →
       (adjustTopP env p).2 = false) ∧
    (∀ (env : TempEnv) (t : ℚ) (cache : Cache) (u v : ℚ),
       env.cancelAfterVisible = false → env.cancelAfterRead = false →
       env.cancelAfterFill = false → env.visibleOk = true →
       env.read1 = ReadRes.ok (some u) → tempClose u (clampTemp t) = false →
       env.fillOk = true → env.read2 = ReadRes.ok (some v) →
       tempClose v (clampTemp t) = false → cache.temperature = none →
       (adjustTemperature env t cache).cancelled = false ∧
       (adjustTemperature env t cache).cache.temperature = none ∧
       Event.snapshot "temperature_verify_fail"
         ∈ (adjustTemperature env t cache).events) ∧
    (∀ (env : TempEnv) (t : ℚ) (cache : Cache) (pe : PwErr),
       env.cancelAfterVisible = false → env.visibleOk = true →
       env.read1 = ReadRes.err pe → cache.temperature = none →
       (adjustTemperature env t cache).cancelled = false ∧
       (adjustTemperature env t cache).cache.temperature = none ∧
       Event.snapshot "temperature_playwright_error"
         ∈ (adjustTemperature env t cache).events) ∧
    (∀ (env : MaxTokensEnv) (mt : ℤ) (modelId : String)
       (models : List ModelEntry) (cache : Cache) (u v : ℤ),
       env.cancelAfterVisible = false → env.cancelAfterFill = false →
       env.visibleOk = true → env.read1 = ReadRes.ok (some u) →
       ¬ u = clampMaxTokens modelId models mt → env.fillOk = true →
       env.read2 = ReadRes.ok (some v) → ¬ v = clampMaxTokens modelId models mt →
       cache.max_output_tokens = none →
       (adjustMaxTokens env mt modelId models cache).cancelled = false ∧
       (adjustMaxTokens env mt modelId models cache).cache.max_output_tokens = none ∧
       Event.snapshot "max_tokens_verify_fail"
         ∈ (adjustMaxTokens env mt modelId models cache).events) ∧
    (∀ (env : StopEnv) (stop : StopInput) (cache : Cache),
       env.cancelChip = (fun _ => false) → env.visibleOk = false →
       ¬ normStops stop = ∅ → ¬ cache.stop_sequences = some (normStops stop) →
       (adjustStopSequences env stop cache).cancelled = false ∧
       (adjustStopSequences env stop cache).cache.stop_sequences = none ∧
       Event.snapshot "stop_sequence_error"
         ∈ (adjustStopSequences env stop cache).events) ∧
    (∀ (env : TopPEnv) (p : ℚ) (u v : ℚ),
       env.cancelAfterVisible = false → env.cancelAfterFill = false →
       env.visibleOk = true → env.read1 = ReadRes.ok (some u) →
       topPDiffer u (clampTopP p) = true → env.fillOk = true →
       env.read2 = ReadRes.ok (some v) → topPDiffer v (clampTopP p) = true →
       (adjustTopP env p).2 = false ∧
       Event.snapshot "top_p_verify_fail" ∈ (adjustTopP env p).1) ∧
    (∀ (env : OrchEnv) (req : RequestParams) (cfg : Config) (modelId : String)
       (models : List ModelEntry) (cache : Cache),
       noCancelOrch env →
       countLockAcq (adjustParameters env req cfg modelId models cache).events = 3 ∧
       (adjustParameters env req cfg modelId models cache).outcome
         ≠ Outcome.cancelled) :=
  ⟨fun env t cache h1 h2 h3 => adjustTemperature_nocancel env t cache h1 h2 h3,
   fun env mt mid ms cache h1 h2 => adjustMaxTokens_nocancel env mt mid ms cache h1 h2,
   fun env stop cache h => adjustStopSequences_nocancel env stop cache h,
   fun env p h1 h2 => adjustTopP_nocancel env p h1 h2,
   tempVerifyFail_contained, tempReadError_contained, maxVerifyFail_contained,
   stopVisibleFail_contained, topPVerifyFail_contained, orch_runs_all⟩

/-- A max-tokens run whose verification read-back disagrees. -/
def mtEnvVerifyFail : MaxTokensEnv :=
  { visibleOk := true, cancelAfterVisible := false, read1 := .ok (some 400),
    fillOk := true, cancelAfterFill := false, read2 := .ok (some 450) }

/-- The empty cache. -/
def cacheEmpty : Cache :=
  { temperature := none, max_output_tokens := none, stop_sequences := none }

/-- An idle tools-panel environment. -/
def panelEnvIdle : PanelEnv :=
  { visibleOk := true, classAttr := .ok (some "expanded"), clickOk := true,
    cancelAfterClick := false, waitExpandedOk := true }

/-- An idle URL-context environment. -/
def urlEnvIdle : UrlEnv :=
  { visibleOk := true, checkedAttr := .ok (some "true"), clickOk := true,
    cancelAfterClick := false }

/-- An idle budget-input environment. -/
def setbEnvIdle : SetBudgetEnv :=
  { visibleOk := true, cancelAfterVisible := false, fillOk := true,
    cancelAfterFill := false }

/-- A thinking environment with no disconnects. -/
def thinkingEnvIdle : ThinkingEnv :=
  { mode := modeEnvEnabledOff, budget := budgetEnvDisabledOff, setb := setbEnvIdle }

/-- A whole-pass environment in which no disconnect poll ever fires. -/
def orchEnvC6 : OrchEnv :=
  { cancelStart := false, temp := tempEnvIdle, cancelAfterTemp := false,
    maxT := mtEnvVerifyFail, cancelAfterMax := false, stop := stopEnvIdle,
    cancelAfterStop := false, topP := topPEnvNoLock, cancelEnd := false,
    panel := panelEnvIdle, url := urlEnvIdle, thinking := thinkingEnvIdle,
    search := searchEnvOn }

/-- A request with every optional field absent and no tools declared. -/
def reqC6 : RequestParams :=
  { temperature := none, max_output_tokens := none, stop := none, top_p := none,
    tools := ToolsField.absent, reasoning_effort := none }

/-- A configuration with both feature flags off. -/
def cfgC6 : Config :=
  { defaultTemperature := 1, defaultMaxOutputTokens := 65536,
    defaultStopSequences := StopInput.null, defaultTopP := 1,
    enableUrlContext := false, enableThinkingBudget := false,
    defaultThinkingBudget := 0, enableGoogleSearch := false }

/-- Witness for C6 at concrete inputs: a concrete failed verification of
max tokens is swallowed, evicts the cache entry and records the snapshot;
and a concrete cancellation-free pass executes all three lock-guarded
steps and does not end cancelled. -/
theorem error_containment_C6_witness :
    ((adjustMaxTokens mtEnvVerifyFail 500 "" [] cacheEmpty).cancelled = false ∧
     (adjustMaxTokens mtEnvVerifyFail 500 "" [] cacheEmpty).cache.max_output_tokens
        = none ∧
     Event.snapshot "max_tokens_verify_fail"
        ∈ (adjustMaxTokens mtEnvVerifyFail 500 "" [] cacheEmpty).events) ∧
    (countLockAcq (adjustParameters orchEnvC6 reqC6 cfgC6 "" [] cacheEmpty).events
        = 3 ∧
     (adjustParameters orchEnvC6 reqC6 cfgC6 "" [] cacheEmpty).outcome
        ≠ Outcome.cancelled) :=
  ⟨error_containment_C6_amended.2.2.2.2.2.2.1 mtEnvVerifyFail 500 "" [] cacheEmpty
     400 450 rfl rfl rfl rfl (by decide) rfl rfl (by decide) rfl,
   error_containment_C6_amended.2.2.2.2.2.2.2.2.2 orchEnvC6 reqC6 cfgC6 "" []
     cacheEmpty
     ⟨rfl, rfl, rfl, rfl, rfl, rfl, rfl, rfl, rfl, rfl, rfl, rfl, rfl, rfl, rfl,
      rfl, rfl, rfl, rfl, rfl, rfl, rfl, rfl⟩⟩

theorem runSteps_single_google (senv : SearchEnv) (cfgSearch : Bool)
    (tools : ToolsField) (c : Cache) :
    (runSteps [fun (cache : Cache) =>
        let r := adjustGoogleSearch senv cfgSearch tools
        (r.1, cache, r.2)] c).outcome
      = (adjustGoogleSearch senv cfgSearch tools).2 := by
  simp only [runSteps]
  rcases hout : (adjustGoogleSearch senv cfgSearch tools).2 with _ | _ | _ <;>
    simp [hout]

set_option maxHeartbeats 1000000 in
theorem orch_outcome_eq_google (env : OrchEnv) (req : RequestParams) (cfg : Config)
    (modelId : String) (models : List ModelEntry) (cache : Cache)
    (h : noCancelOrch env) :
    (adjustParameters env req cfg modelId models cache).outcome
      = (adjustGoogleSearch env.search cfg.enableGoogleSearch req.tools).2 := by
  obtain ⟨hc0, hcT, hcM, hcS, hcE, ht1, ht2, ht3, hm1, hm2, hst, hp1, hp2, hpa, hur,
    hmv, hmc, hbv, hbc, hsv, hsf, hgv, hgc⟩ := h
  have ho0 : ∀ (c : Cache), ((checkpointStep env.cancelStart) c).2.2 = Outcome.ok := by
    intro c; simp [checkpointStep, hc0]
  have hoT : ∀ (c : Cache), ((checkpointStep env.cancelAfterTemp) c).2.2 = Outcome.ok := by
    intro c; simp [checkpointStep, hcT]
  have hoM : ∀ (c : Cache), ((checkpointStep env.cancelAfterMax) c).2.2 = Outcome.ok := by
    intro c; simp [checkpointStep, hcM]
  have hoS : ∀ (c : Cache), ((checkpointStep env.cancelAfterStop) c).2.2 = Outcome.ok := by
    intro c; simp [checkpointStep, hcS]
  have hoE : ∀ (c : Cache), ((checkpointStep env.cancelEnd) c).2.2 = Outcome.ok := by
    intro c; simp [checkpointStep, hcE]
  have ho1 : ∀ (t : ℚ) (c : Cache),
      ((liftStep (adjustTemperature env.temp t)) c).2.2 = Outcome.ok := by
    intro t c; simp [liftStep, adjustTemperature_nocancel env.temp t c ht1 ht2 ht3]
  have ho2 : ∀ (mt : ℤ) (c : Cache),
      ((liftStep (fun cache => adjustMaxTokens env.maxT mt modelId models cache)) c).2.2
        = Outcome.ok := by
    intro mt c; simp [liftStep, adjustMaxTokens_nocancel env.maxT mt modelId models c hm1 hm2]
  have ho3 : ∀ (st : StopInput) (c : Cache),
      ((liftStep (adjustStopSequences env.stop st)) c).2.2 = Outcome.ok := by
    intro st c; simp [liftStep, adjustStopSequences_nocancel env.stop st c hst]
  have ho4 : ∀ (p : ℚ) (c : Cache),
      ((liftNoCache (adjustTopP env.topP p)) c).2.2 = Outcome.ok := by
    intro p c; simp [liftNoCache, adjustTopP_nocancel env.topP p hp1 hp2]
  have ho5 : ∀ (c : Cache),
      ((liftNoCache (ensureToolsPanelExpanded env.panel)) c).2.2 = Outcome.ok := by
    intro c; simp [liftNoCache, panel_nocancel env.panel hpa]
  have ho6 : ∀ (c : Cache),
      ((liftNoCache (if cfg.enableUrlContext then openUrlContext env.url
          else ([], false))) c).2.2 = Outcome.ok := by
    intro c
    by_cases hu : cfg.enableUrlContext <;>
      simp [liftNoCache, hu, url_nocancel env.url hur]
  have ho7 : ∀ (c : Cache),
      ((liftNoCache (handleThinkingBudget env.thinking cfg.enableThinkingBudget
          cfg.defaultThinkingBudget req.reasoning_effort)) c).2.2 = Outcome.ok := by
    intro c
    simp [liftNoCache,
      handleThinking_nocancel env.thinking cfg.enableThinkingBudget
        cfg.defaultThinkingBudget req.reasoning_effort hmv hmc hbv hbc hsv hsf]
  unfold adjustParameters orchSteps
  rw [runSteps_cons_ok _ _ _ (ho0 _), runSteps_cons_ok _ _ _ (ho1 _ _),
      runSteps_cons_ok _ _ _ (hoT _), runSteps_cons_ok _ _ _ (ho2 _ _),
      runSteps_cons_ok _ _ _ (hoM _), runSteps_cons_ok _ _ _ (ho3 _ _),
      runSteps_cons_ok _ _ _ (hoS _), runSteps_cons_ok _ _ _ (ho4 _ _),
      runSteps_cons_ok _ _ _ (hoE _), runSteps_cons_ok _ _ _ (ho5 _),
      runSteps_cons_ok _ _ _ (ho6 _), runSteps_cons_ok _ _ _ (ho7 _)]
  exact runSteps_single_google env.search cfg.enableGoogleSearch req.tools _

/-- A request whose tools list has one malformed entry: a dict mapping
`function` to a non-dict value. -/
def reqBadTools : RequestParams :=
  { temperature := none, max_output_tokens := none, stop := none, top_p := none,
    tools := ToolsField.list [ToolEntry.dict false FuncField.nonDict],
    reasoning_effort := none }

/-- C6 counterexample: with no cancellation anywhere, an adjustment pass
over a request with a malformed tools entry ends with a raised Python
error (`AttributeError` from the google-search scan) escaping the whole
pass — a non-cancellation error crossing the component boundary,
contradicting the claim that only cancellation and total submission
failure do. -/
theorem error_containment_C6_counterexample :
    (adjustParameters orchEnvC6 reqBadTools cfgC6 "" [] cacheEmpty).outcome
      = Outcome.pyError ∧
    Outcome.pyError ≠ Outcome.cancelled := by
  constructor
  · rw [orch_outcome_eq_google orchEnvC6 reqBadTools cfgC6 "" [] cacheEmpty
      ⟨rfl, rfl, rfl, rfl, rfl, rfl, rfl, rfl, rfl, rfl, rfl, rfl, rfl, rfl, rfl,
       rfl, rfl, rfl, rfl, rfl, rfl, rfl, rfl⟩]
    rfl
  · decide
